import Mathlib

/-!
Verification development for the giskit protocol stack: the quirks
resolution system (`giskit/protocols/quirks.py`, `giskit/config/loader.py`),
the OGC API Features download engine (`giskit/protocols/ogc_features.py`)
and the CityJSON per-page vertex-transform decoder
(`giskit/protocols/cityjson.py`).

Modelling conventions:
* Python floats are modelled as `ℚ` (the claims under study are structural,
  about which arithmetic expression is computed, not about IEEE rounding).
* Fallible Python code is modelled with `Except PyErr`; an uncaught Python
  exception is an `Except.error`.
* pydantic `BaseModel` attribute lookup is modelled by name (`getattrName`):
  a declared field returns its value, any other name raises `AttributeError`,
  which is exactly CPython/pydantic-v2 behaviour for a model without
  `extra="allow"`.
* pydantic's per-instance set of explicitly-passed constructor fields
  (`__pydantic_fields_set__`, consulted by `model_dump(exclude_unset=True)`)
  is carried alongside each quirks value as a `QuirksFieldsSet`.
-/

namespace Giskit

/-- Python exceptions that the modelled code can raise. `fuelOut` is a model
artifact marking exhaustion of the explicit fuel used to embed the unbounded
pagination `while True` loop; no theorem below relies on it. -/
inductive PyErr where
  | attributeError (name : String)
  | valueError (msg : String)
  | ogcFeaturesError (msg : String)
  | fuelOut
deriving DecidableEq, Repr

/-- Value of one pydantic field of `ProtocolQuirks`, as stored in a
`model_dump()` dictionary. -/
inductive QV where
  | b (v : Bool)
  | s (v : String)
  | onat (v : Option Nat)
  | orat (v : Option ℚ)
  | ostr (v : Option String)
  | omap (v : List (String × String))
deriving DecidableEq, Repr

/-- Python truthiness of a field value: `False`, `None`, `0`, `""`, `{}` are
falsy, everything else truthy. -/
def QV.truthy : QV → Bool
  | .b v => v
  | .s v => v != ""
  | .onat v => match v with | none => false | some n => n != 0
  | .orat v => match v with | none => false | some q => q != 0
  | .ostr v => match v with | none => false | some t => t != ""
  | .omap v => !v.isEmpty

/-- The `ProtocolQuirks` pydantic model from `giskit/protocols/quirks.py`,
with the field defaults declared there. `custom_timeout` (a Python float) is
modelled as `Option ℚ`. -/
structure ProtocolQuirks where
  requires_trailing_slash : Bool := false
  require_format_param : Bool := false
  format_param_name : String := "f"
  format_param_value : String := "json"
  max_features_limit : Option Nat := none
  pagination_broken : Bool := false
  custom_timeout : Option ℚ := none
  force_crs_in_query : Bool := false
  bbox_crs : Option String := none
  custom_headers : List (String × String) := []
  empty_collections_return_404 : Bool := false
  format_is_cityjson : Bool := false
  cityjson_version : Option String := none
  has_per_page_transform : Bool := false
  transform_applies_to_vertices : Bool := false
  vertices_are_integers : Bool := false
  has_lod_hierarchy : Bool := false
  geometry_in_city_objects : Bool := false
  description : Option String := none
  issue_url : Option String := none
  workaround_date : Option String := none
deriving DecidableEq, Repr

/-- Attribute lookup on a `ProtocolQuirks` instance. The declared fields are
exactly the class body of `ProtocolQuirks`; any other attribute name raises
`AttributeError`, as pydantic v2 does for undeclared attributes. -/
def ProtocolQuirks.getattrName (q : ProtocolQuirks) (name : String) : Except PyErr QV :=
  match name with
  | "requires_trailing_slash" => .ok (.b q.requires_trailing_slash)
  | "require_format_param" => .ok (.b q.require_format_param)
  | "format_param_name" => .ok (.s q.format_param_name)
  | "format_param_value" => .ok (.s q.format_param_value)
  | "max_features_limit" => .ok (.onat q.max_features_limit)
  | "pagination_broken" => .ok (.b q.pagination_broken)
  | "custom_timeout" => .ok (.orat q.custom_timeout)
  | "force_crs_in_query" => .ok (.b q.force_crs_in_query)
  | "bbox_crs" => .ok (.ostr q.bbox_crs)
  | "custom_headers" => .ok (.omap q.custom_headers)
  | "empty_collections_return_404" => .ok (.b q.empty_collections_return_404)
  | "format_is_cityjson" => .ok (.b q.format_is_cityjson)
  | "cityjson_version" => .ok (.ostr q.cityjson_version)
  | "has_per_page_transform" => .ok (.b q.has_per_page_transform)
  | "transform_applies_to_vertices" => .ok (.b q.transform_applies_to_vertices)
  | "vertices_are_integers" => .ok (.b q.vertices_are_integers)
  | "has_lod_hierarchy" => .ok (.b q.has_lod_hierarchy)
  | "geometry_in_city_objects" => .ok (.b q.geometry_in_city_objects)
  | "description" => .ok (.ostr q.description)
  | "issue_url" => .ok (.ostr q.issue_url)
  | "workaround_date" => .ok (.ostr q.workaround_date)
  | other => .error (.attributeError other)

/-- Which constructor arguments were explicitly passed when a
`ProtocolQuirks` instance was created (pydantic `__pydantic_fields_set__`).
`model_dump(exclude_unset=True)` keeps exactly the fields marked `true`. -/
structure QuirksFieldsSet where
  requires_trailing_slash : Bool := false
  require_format_param : Bool := false
  format_param_name : Bool := false
  format_param_value : Bool := false
  max_features_limit : Bool := false
  pagination_broken : Bool := false
  custom_timeout : Bool := false
  force_crs_in_query : Bool := false
  bbox_crs : Bool := false
  custom_headers : Bool := false
  empty_collections_return_404 : Bool := false
  format_is_cityjson : Bool := false
  cityjson_version : Bool := false
  has_per_page_transform : Bool := false
  transform_applies_to_vertices : Bool := false
  vertices_are_integers : Bool := false
  has_lod_hierarchy : Bool := false
  geometry_in_city_objects : Bool := false
  description : Bool := false
  issue_url : Bool := false
  workaround_date : Bool := false
deriving DecidableEq, Repr

/-- A `ProtocolQuirks` instance together with its pydantic fields-set, as
stored in the `KNOWN_QUIRKS` registry. -/
structure QEntry where
  val : ProtocolQuirks
  fset : QuirksFieldsSet
deriving DecidableEq, Repr

/-- The merge performed by `get_service_quirks`:
`base_dict = base.model_dump(); base_dict.update(svc.model_dump(exclude_unset=True));
ProtocolQuirks(**base_dict)`. Both dictionaries range over the same fixed key
set (the 21 declared fields), so the dict update is a per-field override by
the service's explicitly-set fields. -/
def mergeQuirks (base svc : ProtocolQuirks) (fset : QuirksFieldsSet) : ProtocolQuirks where
  requires_trailing_slash :=
    if fset.requires_trailing_slash then svc.requires_trailing_slash else base.requires_trailing_slash
  require_format_param :=
    if fset.require_format_param then svc.require_format_param else base.require_format_param
  format_param_name :=
    if fset.format_param_name then svc.format_param_name else base.format_param_name
  format_param_value :=
    if fset.format_param_value then svc.format_param_value else base.format_param_value
  max_features_limit :=
    if fset.max_features_limit then svc.max_features_limit else base.max_features_limit
  pagination_broken :=
    if fset.pagination_broken then svc.pagination_broken else base.pagination_broken
  custom_timeout :=
    if fset.custom_timeout then svc.custom_timeout else base.custom_timeout
  force_crs_in_query :=
    if fset.force_crs_in_query then svc.force_crs_in_query else base.force_crs_in_query
  bbox_crs :=
    if fset.bbox_crs then svc.bbox_crs else base.bbox_crs
  custom_headers :=
    if fset.custom_headers then svc.custom_headers else base.custom_headers
  empty_collections_return_404 :=
    if fset.empty_collections_return_404 then svc.empty_collections_return_404 else base.empty_collections_return_404
  format_is_cityjson :=
    if fset.format_is_cityjson then svc.format_is_cityjson else base.format_is_cityjson
  cityjson_version :=
    if fset.cityjson_version then svc.cityjson_version else base.cityjson_version
  has_per_page_transform :=
    if fset.has_per_page_transform then svc.has_per_page_transform else base.has_per_page_transform
  transform_applies_to_vertices :=
    if fset.transform_applies_to_vertices then svc.transform_applies_to_vertices else base.transform_applies_to_vertices
  vertices_are_integers :=
    if fset.vertices_are_integers then svc.vertices_are_integers else base.vertices_are_integers
  has_lod_hierarchy :=
    if fset.has_lod_hierarchy then svc.has_lod_hierarchy else base.has_lod_hierarchy
  geometry_in_city_objects :=
    if fset.geometry_in_city_objects then svc.geometry_in_city_objects else base.geometry_in_city_objects
  description :=
    if fset.description then svc.description else base.description
  issue_url :=
    if fset.issue_url then svc.issue_url else base.issue_url
  workaround_date :=
    if fset.workaround_date then svc.workaround_date else base.workaround_date

/-- The `KNOWN_QUIRKS` registry shape: provider (or format, or service) name
to protocol name to quirks entry. Parametrised because `load_quirks` can
populate it from YAML config files or from the legacy fallback. -/
def QuirksTable : Type := List (String × List (String × QEntry))

/-- Lookup of `KNOWN_QUIRKS.get(provider, {}).get(protocol, ...)`. -/
def tableFind (t : QuirksTable) (provider protocol : String) : Option QEntry :=
  (List.lookup provider t).bind (List.lookup protocol)

/-- The function `get_quirks(provider, protocol)` of
`giskit/protocols/quirks.py`: dictionary lookup with the default
`ProtocolQuirks()` when either key is absent. Total by construction —
resolution never raises. -/
def get_quirks (t : QuirksTable) (provider protocol : String) : ProtocolQuirks :=
  match tableFind t provider protocol with
  | some e => e.val
  | none => {}

/-- The function `get_service_quirks(provider, protocol, service)` of
`giskit/protocols/quirks.py`: start from the provider-level quirks, then
overlay a service-specific entry found under `provider + "-" + service`, or,
failing that, under `service` directly. -/
def get_service_quirks (t : QuirksTable) (provider protocol service : String) : ProtocolQuirks :=
  let base := get_quirks t provider protocol
  match tableFind t (provider ++ "-" ++ service) protocol with
  | some svc => mergeQuirks base svc.val svc.fset
  | none =>
    match tableFind t service protocol with
    | some svc => mergeQuirks base svc.val svc.fset
    | none => base

/-- The `QuirkDefinition` pydantic model of `giskit/config/loader.py`
(the YAML-facing quirk schema), with its declared defaults. -/
structure QuirkDefinition where
  name : String
  description : String := ""
  requires_trailing_slash : Bool := false
  require_format_param : Bool := false
  format_param_name : String := "f"
  format_param_value : String := "json"
  max_features_limit : Option Nat := none
  pagination_broken : Bool := false
  custom_timeout : Option ℚ := none
  bbox_crs : Option String := none
  format_is_cityjson : Bool := false
  cityjson_version : Option String := none
  has_per_page_transform : Bool := false
  transform_applies_to_vertices : Bool := false
  vertices_are_integers : Bool := false
  has_lod_hierarchy : Bool := false
  geometry_in_city_objects : Bool := false
  issue_url : Option String := none
  workaround_date : Option String := none
deriving DecidableEq, Repr

/-- The fields-set of a `ProtocolQuirks` built by
`QuirkDefinition.to_protocol_quirks`: that constructor call explicitly passes
18 keyword arguments (every field except `force_crs_in_query`,
`custom_headers` and `empty_collections_return_404`), so pydantic marks all
18 as set — whether or not their values differ from the defaults. -/
def toProtocolQuirksFieldsSet : QuirksFieldsSet where
  requires_trailing_slash := true
  require_format_param := true
  format_param_name := true
  format_param_value := true
  max_features_limit := true
  pagination_broken := true
  custom_timeout := true
  bbox_crs := true
  format_is_cityjson := true
  cityjson_version := true
  has_per_page_transform := true
  transform_applies_to_vertices := true
  vertices_are_integers := true
  has_lod_hierarchy := true
  geometry_in_city_objects := true
  description := true
  issue_url := true
  workaround_date := true

/-- The method `QuirkDefinition.to_protocol_quirks` of
`giskit/config/loader.py`: builds a `ProtocolQuirks` passing 18 fields as
explicit keyword arguments (loader.py lines 149-168). The resulting registry
entry therefore carries `toProtocolQuirksFieldsSet` as its pydantic
fields-set. -/
def QuirkDefinition.to_protocol_quirks (d : QuirkDefinition) : QEntry where
  val :=
    { requires_trailing_slash := d.requires_trailing_slash
      require_format_param := d.require_format_param
      format_param_name := d.format_param_name
      format_param_value := d.format_param_value
      max_features_limit := d.max_features_limit
      pagination_broken := d.pagination_broken
      custom_timeout := d.custom_timeout
      bbox_crs := d.bbox_crs
      format_is_cityjson := d.format_is_cityjson
      cityjson_version := d.cityjson_version
      has_per_page_transform := d.has_per_page_transform
      transform_applies_to_vertices := d.transform_applies_to_vertices
      vertices_are_integers := d.vertices_are_integers
      has_lod_hierarchy := d.has_lod_hierarchy
      geometry_in_city_objects := d.geometry_in_city_objects
      description := some d.description
      issue_url := d.issue_url
      workaround_date := d.workaround_date }
  fset := toProtocolQuirksFieldsSet

/-- The `"cityjson" → "format"` entry of `LEGACY_KNOWN_QUIRKS`
(quirks.py lines 188-211); its fields-set is the set of keyword arguments of
that constructor call. -/
def cityjsonFormatEntry : QEntry where
  val :=
    { format_is_cityjson := true
      cityjson_version := some "2.0"
      geometry_in_city_objects := true
      has_lod_hierarchy := true
      has_per_page_transform := true
      transform_applies_to_vertices := true
      vertices_are_integers := true
      custom_timeout := some 60
      description := some "CityJSON 2.0 format uses per-page transforms for vertex compression."
      issue_url := some "https://www.cityjson.org/specs/2.0.0/#transform-object"
      workaround_date := some "2024-11-22" }
  fset :=
    { format_is_cityjson := true
      cityjson_version := true
      geometry_in_city_objects := true
      has_lod_hierarchy := true
      has_per_page_transform := true
      transform_applies_to_vertices := true
      vertices_are_integers := true
      custom_timeout := true
      description := true
      issue_url := true
      workaround_date := true }

/-- A registry in which a service-level override was produced by
`QuirkDefinition.to_protocol_quirks` from a `QuirkDefinition` that sets no
quirk field — the shape `load_quirks` produces for every YAML-configured
service entry. -/
def quirksTableCX : QuirksTable :=
  [("cityjson", [("format", cityjsonFormatEntry)]),
   ("svc", [("format", QuirkDefinition.to_protocol_quirks { name := "svc-format" })])]

/-- Modelled from the spec: the overlay the spec describes for quirk
resolution — the provider-level quirks with exactly the service-level quirks'
NON-DEFAULT fields overwritten, each field independently. Used only to be
compared against the code's `mergeQuirks`/`get_service_quirks`. -/
def specOverlayNonDefault (base svc : ProtocolQuirks) : ProtocolQuirks where
  requires_trailing_slash :=
    if svc.requires_trailing_slash ≠ false then svc.requires_trailing_slash else base.requires_trailing_slash
  require_format_param :=
    if svc.require_format_param ≠ false then svc.require_format_param else base.require_format_param
  format_param_name :=
    if svc.format_param_name ≠ "f" then svc.format_param_name else base.format_param_name
  format_param_value :=
    if svc.format_param_value ≠ "json" then svc.format_param_value else base.format_param_value
  max_features_limit :=
    if svc.max_features_limit ≠ none then svc.max_features_limit else base.max_features_limit
  pagination_broken :=
    if svc.pagination_broken ≠ false then svc.pagination_broken else base.pagination_broken
  custom_timeout :=
    if svc.custom_timeout ≠ none then svc.custom_timeout else base.custom_timeout
  force_crs_in_query :=
    if svc.force_crs_in_query ≠ false then svc.force_crs_in_query else base.force_crs_in_query
  bbox_crs :=
    if svc.bbox_crs ≠ none then svc.bbox_crs else base.bbox_crs
  custom_headers :=
    if svc.custom_headers ≠ [] then svc.custom_headers else base.custom_headers
  empty_collections_return_404 :=
    if svc.empty_collections_return_404 ≠ false then svc.empty_collections_return_404 else base.empty_collections_return_404
  format_is_cityjson :=
    if svc.format_is_cityjson ≠ false then svc.format_is_cityjson else base.format_is_cityjson
  cityjson_version :=
    if svc.cityjson_version ≠ none then svc.cityjson_version else base.cityjson_version
  has_per_page_transform :=
    if svc.has_per_page_transform ≠ false then svc.has_per_page_transform else base.has_per_page_transform
  transform_applies_to_vertices :=
    if svc.transform_applies_to_vertices ≠ false then svc.transform_applies_to_vertices else base.transform_applies_to_vertices
  vertices_are_integers :=
    if svc.vertices_are_integers ≠ false then svc.vertices_are_integers else base.vertices_are_integers
  has_lod_hierarchy :=
    if svc.has_lod_hierarchy ≠ false then svc.has_lod_hierarchy else base.has_lod_hierarchy
  geometry_in_city_objects :=
    if svc.geometry_in_city_objects ≠ false then svc.geometry_in_city_objects else base.geometry_in_city_objects
  description :=
    if svc.description ≠ none then svc.description else base.description
  issue_url :=
    if svc.issue_url ≠ none then svc.issue_url else base.issue_url
  workaround_date :=
    if svc.workaround_date ≠ none then svc.workaround_date else base.workaround_date

/-! ### Temporal filter model (`OGCFeaturesProtocol._apply_temporal_filter`)

A GeoDataFrame is modelled as a set of column-presence flags (pandas column
membership tests such as `"lokaal_id" in gdf.columns` are table-level) plus a
list of rows. A row carries the six columns the temporal filter consults,
each as `Option String` (or `Option ℚ` for `version`) with `none` standing
for a pandas NaN, plus an opaque payload (geometry and all other columns).
`pandas.sort_values` is modelled as a stable sort (numpy uses insertion sort
on the small arrays at issue) with NaN keys placed last (`na_position`
default), which captures exactly the input-order dependence of tie-breaking.
Timestamps are ISO strings compared lexicographically, as pandas compares
object-dtype columns. -/

/-- Column-presence flags of a feature GeoDataFrame. -/
structure ColFlags where
  hasLokaal : Bool := false
  hasIdent : Bool := false
  hasTerm : Bool := false
  hasEind : Bool := false
  hasTijd : Bool := false
  hasVersion : Bool := false
deriving DecidableEq, Repr

/-- One GeoDataFrame row: the temporal columns plus an opaque payload. A
column absent from the table has value `none` in every row. -/
structure TRow (α : Type) where
  lokaal_id : Option String := none
  identificatie : Option String := none
  termination_date : Option String := none
  eind_registratie : Option String := none
  tijdstip_registratie : Option String := none
  version : Option ℚ := none
  payload : α
deriving DecidableEq, Repr

/-- A feature GeoDataFrame: column flags plus rows. -/
structure TGdf (α : Type) where
  cols : ColFlags
  rows : List (TRow α)
deriving DecidableEq, Repr

/-- The identifier column chosen by `_apply_temporal_filter`:
`lokaal_id` (BGT data) wins over `identificatie` (BAG/BRK data). -/
inductive IdField where
  | lokaal
  | ident
deriving DecidableEq, Repr

/-- Column selection of `_apply_temporal_filter` lines 546-553. -/
def idFieldOf (cols : ColFlags) : Option IdField :=
  if cols.hasLokaal then some .lokaal
  else if cols.hasIdent then some .ident
  else none

/-- Value of the chosen identifier column in a row. -/
def TRow.idKey {α : Type} (f : IdField) (r : TRow α) : Option String :=
  match f with
  | .lokaal => r.lokaal_id
  | .ident => r.identificatie

/-- Descending comparison on an optional sort key with NaN keys ordered
last, as `sort_values(col, ascending=False)` does (`na_position="last"`). -/
def optDescLe {κ : Type} [LinearOrder κ] : Option κ → Option κ → Bool
  | some u, some v => decide (v ≤ u)
  | some _, none => true
  | none, some _ => false
  | none, none => true

/-- Stable model of `gdf.sort_values(key, ascending=False)`. -/
def pandasSortDesc {α κ : Type} [LinearOrder κ] (key : TRow α → Option κ)
    (rows : List (TRow α)) : List (TRow α) :=
  List.insertionSort (fun a b => optDescLe (key a) (key b) = true) rows

/-- The scan underlying `drop_duplicates(subset=id_field, keep="first")`:
keep a row iff its key was not seen earlier (pandas matches NaN keys with
each other, hence the `Option` key). -/
def dropDupGo {α : Type} (key : TRow α → Option String) (seen : List (Option String)) :
    List (TRow α) → List (TRow α)
  | [] => []
  | r :: rest =>
    if seen.contains (key r) then dropDupGo key seen rest
    else r :: dropDupGo key (key r :: seen) rest

/-- Model of `gdf.drop_duplicates(subset=id_field, keep="first")`. -/
def drop_duplicates_first {α : Type} (key : TRow α → Option String)
    (rows : List (TRow α)) : List (TRow α) :=
  dropDupGo key [] rows

/-- Predicate of the `termination_date` masks: NaN, empty string, or a date
strictly after the reference instant. -/
def terminationKeeps (ref : String) (td : Option String) : Bool :=
  match td with
  | none => true
  | some t => t == "" || decide (ref < t)

/-- The `temporal == "active"` pre-filter (`_apply_temporal_filter` lines
555-568): keep rows whose `termination_date` is NaN, empty, or after `now`;
only applied when the column exists. -/
def activePrefilter {α : Type} (now : String) (g : TGdf α) : TGdf α :=
  if g.cols.hasTerm then
    ⟨g.cols, g.rows.filter (fun r => terminationKeeps now r.termination_date)⟩
  else g

/-- The `temporal == "latest"` body (`_apply_temporal_filter` lines
570-594): drop rows with a non-empty `eind_registratie` when that column
exists, then keep the newest row per identifier — sorting descending by
`tijdstip_registratie` when present, else by `version`, else keeping the
first occurrence. -/
def latestFilter {α : Type} (idf : IdField) (g : TGdf α) : TGdf α :=
  let rows1 :=
    if g.cols.hasEind then
      g.rows.filter (fun r =>
        match r.eind_registratie with
        | none => true
        | some t => t == "")
    else g.rows
  let rows2 :=
    if g.cols.hasTijd then
      drop_duplicates_first (TRow.idKey idf)
        (pandasSortDesc (fun r => r.tijdstip_registratie) rows1)
    else if g.cols.hasVersion then
      drop_duplicates_first (TRow.idKey idf)
        (pandasSortDesc (fun r => r.version) rows1)
    else
      drop_duplicates_first (TRow.idKey idf) rows1
  ⟨g.cols, rows2⟩

/-- The as-of-date body (`_apply_temporal_filter` lines 604-620): keep rows
registered at or before the target instant whose termination is NaN, empty
or after it, then keep the newest per identifier. -/
def asOfFilter {α : Type} (idf : IdField) (targetIso : String) (g : TGdf α) : TGdf α :=
  let rows1 :=
    if g.cols.hasTijd then
      g.rows.filter (fun r =>
        match r.tijdstip_registratie with
        | none => false
        | some t => decide (t ≤ targetIso))
    else g.rows
  let rows2 :=
    if g.cols.hasTerm then rows1.filter (fun r => terminationKeeps targetIso r.termination_date)
    else rows1
  let rows3 :=
    if g.cols.hasTijd then
      drop_duplicates_first (TRow.idKey idf)
        (pandasSortDesc (fun r => r.tijdstip_registratie) rows2)
    else rows2
  ⟨g.cols, rows3⟩

/-- The method `OGCFeaturesProtocol._apply_temporal_filter`, parametrised by
`parseIso`, the external `datetime.fromisoformat`+`isoformat` composite
(`none` = `ValueError`), and by the `datetime.now().isoformat()+"Z"` string.
The returned `Bool` is `true` iff the "Invalid temporal date … using
'latest' instead" warning was printed. The source handles an unparsable date
by re-invoking itself with `"latest"` on the untouched GeoDataFrame; at that
point the frame is non-empty, has an identifier column, and the strategy
string (which contains two dashes) was neither `"active"` nor `"latest"`,
so the recursive call reduces to exactly `latestFilter idf g1`, which is how
it is written here. -/
def apply_temporal_filter {α : Type} (parseIso : String → Option String) (now : String)
    (g : TGdf α) (temporal : String) : TGdf α × Bool :=
  if temporal == "all" || g.rows.isEmpty then (g, false)
  else
    match idFieldOf g.cols with
    | none => (g, false)
    | some idf =>
      let st := if temporal == "active" then (activePrefilter now g, "latest") else (g, temporal)
      let g1 := st.1
      let t1 := st.2
      if t1 == "latest" then (latestFilter idf g1, false)
      else if t1.toList.count '-' == 2 then
        match parseIso (t1.replace "Z" "") with
        | some iso => (asOfFilter idf (iso ++ "Z") g1, false)
        | none => (latestFilter idf g1, true)
      else (g1, false)

/-! ### CityJSON decoder model (`giskit/protocols/cityjson.py`)

Vertices are modelled as x/y plus an optional z (`len(v) > 2` in the
source); boundary nesting (`MultiSurface` = surfaces→rings→indices,
`Solid` = shells→surfaces→rings→indices) is encoded by an inductive, and the
source's `geom.get("type", "")` string is derived from the shape, which
assumes (only) that payloads are well-formed CityJSON. The `"lod"` value of
a geometry is stored already `str()`-rendered; an absent key renders as
`"None"` via `str(geom.get("lod"))` and as `""` via
`str(geom.get("lod", ""))`. `shapely.Polygon` raises `ValueError` when given
a non-empty ring of fewer than 3 coordinates. -/

/-- A JSON scalar attribute value. -/
inductive JVal where
  | s (v : String)
  | n (v : ℚ)
  | null
deriving DecidableEq, Repr

/-- A CityJSON vertex: x and y plus an optional z component. -/
structure Vertex where
  x : ℚ
  y : ℚ
  z : Option ℚ := none
deriving DecidableEq, Repr

/-- The `metadata.transform` JSON object of a page; either key may be
absent. -/
structure TransformObj where
  scale : Option (ℚ × ℚ × ℚ) := none
  translate : Option (ℚ × ℚ × ℚ) := none
deriving DecidableEq, Repr

/-- The `metadata` JSON object of a page. -/
structure PageMetadata where
  transform : Option TransformObj := none
deriving DecidableEq, Repr

/-- CityJSON boundary arrays, by geometry type. -/
inductive CJBoundaries where
  | multiSurface (surfaces : List (List (List Nat)))
  | solid (shells : List (List (List (List Nat))))
  | other
deriving DecidableEq, Repr

/-- One entry of a CityObject's `geometry` list. -/
structure CJGeom where
  lod : Option String := none
  boundaries : CJBoundaries := .other
deriving DecidableEq, Repr

/-- One CityObject: `type`, `geometry` and `attributes`. -/
structure CityObject where
  type : Option String := none
  geometry : List CJGeom := []
  attributes : List (String × JVal) := []
deriving DecidableEq, Repr

/-- One CityJSON feature: its own `vertices` array and its (ordered)
`CityObjects` mapping. -/
structure CJFeature where
  vertices : List Vertex := []
  cityObjects : List (String × CityObject) := []
deriving DecidableEq, Repr

/-- The decoder's page input: `metadata` (with the per-page transform) and
`features` — the argument of `cityjson_to_geodataframe`. -/
structure CityPage where
  metadata : Option PageMetadata := none
  features : List CJFeature := []
deriving DecidableEq, Repr

/-- Python `attrs.get(key)` (absent → `None`). -/
def attrGet (attrs : List (String × JVal)) (k : String) : JVal :=
  match List.lookup k attrs with
  | some v => v
  | none => .null

/-- Python `attrs.get(key, default)`. -/
def attrGetD (attrs : List (String × JVal)) (k : String) (d : JVal) : JVal :=
  match List.lookup k attrs with
  | some v => v
  | none => d

/-- The check `transform and "scale" in transform and "translate" in
transform`: both keys present (a dict containing both keys is necessarily
truthy). -/
def tfParts : Option TransformObj → Option ((ℚ × ℚ × ℚ) × (ℚ × ℚ × ℚ))
  | some tr =>
    match tr.scale, tr.translate with
    | some sc, some tl => some (sc, tl)
    | _, _ => none
  | none => none

/-- The 2-D transform application of `_extract_lod0_geometry`:
`x = v[0]*scale[0]+translate[0]`, `y = v[1]*scale[1]+translate[1]`. -/
def applyTf2 (sc tl : ℚ × ℚ × ℚ) (v : Vertex) : ℚ × ℚ :=
  (v.x * sc.1 + tl.1, v.y * sc.2.1 + tl.2.1)

/-- The 3-D transform application of `_extract_lod_geometry`; the z
component is `v[2]*scale[2]+translate[2]` when the vertex has a third
component and literal `0` otherwise. -/
def applyTf3 (sc tl : ℚ × ℚ × ℚ) (v : Vertex) : ℚ × ℚ × ℚ :=
  (v.x * sc.1 + tl.1, v.y * sc.2.1 + tl.2.1,
    match v.z with
    | some zz => zz * sc.2.2 + tl.2.2
    | none => 0)

/-- Resolution of one 2-D ring: each index is kept only when it is inside
the vertex array (`if vertex_idx < len(vertices)`), then transformed when a
full transform is present, else used raw. -/
def ringCoords2 (tf : Option ((ℚ × ℚ × ℚ) × (ℚ × ℚ × ℚ))) (vertices : List Vertex)
    (ring : List Nat) : List (ℚ × ℚ) :=
  ring.filterMap (fun idx =>
    if h : idx < vertices.length then
      some (match tf with
        | some (sc, tl) => applyTf2 sc tl vertices[idx]
        | none => (vertices[idx].x, vertices[idx].y))
    else none)

/-- Resolution of one 3-D ring. -/
def ringCoords3 (tf : Option ((ℚ × ℚ × ℚ) × (ℚ × ℚ × ℚ))) (vertices : List Vertex)
    (ring : List Nat) : List (ℚ × ℚ × ℚ) :=
  ring.filterMap (fun idx =>
    if h : idx < vertices.length then
      some (match tf with
        | some (sc, tl) => applyTf3 sc tl vertices[idx]
        | none => (vertices[idx].x, vertices[idx].y, vertices[idx].z.getD 0))
    else none)

/-- Decoded geometry values (`shapely` objects): a 2-D polygon given by its
outer ring, or a 3-D multipolygon given by its polygons' outer rings. -/
inductive PyGeom where
  | polygon (ring : List (ℚ × ℚ))
  | multiPolygon (polys : List (List (ℚ × ℚ × ℚ)))
deriving DecidableEq, Repr

/-- `shapely.geometry.Polygon` on a 2-D ring: an empty sequence yields the
empty polygon, a non-empty sequence of fewer than 3 points raises
`ValueError`. -/
def shapelyPolygon (ring : List (ℚ × ℚ)) : Except PyErr PyGeom :=
  if ring.length = 0 then .ok (.polygon [])
  else if ring.length < 3 then
    .error (.valueError "A LinearRing must have at least 3 coordinate tuples")
  else .ok (.polygon ring)

/-- `shapely.geometry.Polygon` on a 3-D ring, returning the validated
ring. -/
def shapelyPolygon3 (ring : List (ℚ × ℚ × ℚ)) : Except PyErr (List (ℚ × ℚ × ℚ)) :=
  if ring.length = 0 then .ok []
  else if ring.length < 3 then
    .error (.valueError "A LinearRing must have at least 3 coordinate tuples")
  else .ok ring

/-- The `coords` accumulation of `_extract_lod0_geometry`: one resolved
outer ring per non-empty surface, dropped when it resolves to no points. -/
def lod0Coords (tf : Option ((ℚ × ℚ × ℚ) × (ℚ × ℚ × ℚ))) (vertices : List Vertex)
    (surfaces : List (List (List Nat))) : List (List (ℚ × ℚ)) :=
  surfaces.filterMap (fun surface =>
    match surface with
    | [] => none
    | outer :: _ =>
      let rc := ringCoords2 tf vertices outer
      if rc.isEmpty then none else some rc)

/-- The geometry-list loop of `_extract_lod0_geometry`: find a geometry with
`str(lod) == "0"` of type `MultiSurface` with non-empty boundaries (and a
non-empty vertex array), build the ring coordinates and return
`Polygon(coords[0])` — which raises on a short first ring; otherwise fall
through to the next geometry, ending in `None`. -/
def lod0Go (tf : Option ((ℚ × ℚ × ℚ) × (ℚ × ℚ × ℚ))) (vertices : List Vertex) :
    List CJGeom → Except PyErr (Option PyGeom)
  | [] => .ok none
  | g :: rest =>
    if g.lod.getD "None" == "0" then
      match g.boundaries with
      | .multiSurface surfaces =>
        if !surfaces.isEmpty && !vertices.isEmpty then
          match lod0Coords tf vertices surfaces with
          | [] => lod0Go tf vertices rest
          | c0 :: _ => (shapelyPolygon c0).map some
        else lod0Go tf vertices rest
      | _ => lod0Go tf vertices rest
    else lod0Go tf vertices rest

/-- The function `_extract_lod0_geometry(city_object, vertices, transform)`. -/
def extract_lod0_geometry (co : CityObject) (vertices : List Vertex)
    (transform : Option TransformObj) : Except PyErr (Option PyGeom) :=
  lod0Go (tfParts transform) vertices co.geometry

/-- The `surfaces` accumulation of `_extract_lod_geometry`: every non-empty
surface of every shell contributes its resolved outer ring as a polygon,
with `Polygon` failures silently skipped (`except Exception: pass`). -/
def lodSurfaces (tf : Option ((ℚ × ℚ × ℚ) × (ℚ × ℚ × ℚ))) (vertices : List Vertex)
    (shells : List (List (List (List Nat)))) : List (List (ℚ × ℚ × ℚ)) :=
  shells.flatten.filterMap (fun surface =>
    match surface with
    | [] => none
    | outer :: _ =>
      let rc := ringCoords3 tf vertices outer
      if rc.isEmpty then none
      else
        match shapelyPolygon3 rc with
        | .ok poly => some poly
        | .error _ => none)

/-- The geometry-list loop of `_extract_lod_geometry`: find a geometry with
`str(geom.get("lod", "")) == lod` of type `Solid` with non-empty boundaries,
collect its surfaces and return `MultiPolygon(surfaces)` when any survive;
otherwise continue, ending in `None`. Never raises. -/
def lodGo (tf : Option ((ℚ × ℚ × ℚ) × (ℚ × ℚ × ℚ))) (vertices : List Vertex)
    (lod : String) : List CJGeom → Option PyGeom
  | [] => none
  | g :: rest =>
    if g.lod.getD "" == lod then
      match g.boundaries with
      | .solid shells =>
        if !shells.isEmpty && !vertices.isEmpty then
          match lodSurfaces tf vertices shells with
          | [] => lodGo tf vertices lod rest
          | s0 :: srest => some (.multiPolygon (s0 :: srest))
        else lodGo tf vertices lod rest
      | _ => lodGo tf vertices lod rest
    else lodGo tf vertices lod rest

/-- The function `_extract_lod_geometry(city_object, vertices, lod,
transform)`. -/
def extract_lod_geometry (co : CityObject) (vertices : List Vertex) (lod : String)
    (transform : Option TransformObj) : Option PyGeom :=
  lodGo (tfParts transform) vertices lod co.geometry

/-- One decoded building row: geometry plus the attribute columns the
decoder assembles. -/
structure CJRow where
  geometry : PyGeom
  attrs : List (String × JVal)
deriving DecidableEq, Repr

/-- Search for the main `Building` object (first in `CityObjects` order). -/
def findBuilding : List (String × CityObject) → Option (String × CityObject)
  | [] => none
  | (i, o) :: rest => if o.type == some "Building" then some (i, o) else findBuilding rest

/-- The `BuildingPart` loop of `cityjson_to_geodataframe` for 3-D LODs: the
first part whose requested LOD yields a (truthy) geometry wins; parts
without it are passed over. -/
def findPartGeometry (vertices : List Vertex) (lod : String)
    (transform : Option TransformObj) : List (String × CityObject) → Option PyGeom
  | [] => none
  | (_, o) :: rest =>
    if o.type == some "BuildingPart" then
      match extract_lod_geometry o vertices lod transform with
      | some geo => some geo
      | none => findPartGeometry vertices lod transform rest
    else findPartGeometry vertices lod transform rest

/-- The row dictionary built for one decoded building (attribute part). -/
def cjRowAttrs (lod : String) (bid : String) (b : CityObject) : List (String × JVal) :=
  let attrs := b.attributes
  let base :=
    [("identificatie", attrGetD attrs "identificatie" (.s (if bid == "" then "unknown" else bid))),
     ("bouwjaar", attrGet attrs "oorspronkelijkbouwjaar"),
     ("status", attrGet attrs "status"),
     ("h_dak_max", attrGet attrs "b3_h_dak_max"),
     ("h_dak_min", attrGet attrs "b3_h_dak_min"),
     ("h_dak_50p", attrGet attrs "b3_h_dak_50p"),
     ("h_maaiveld", attrGet attrs "b3_h_maaiveld"),
     ("opp_grond", attrGet attrs "b3_opp_grond"),
     ("opp_dak_plat", attrGet attrs "b3_opp_dak_plat"),
     ("opp_dak_schuin", attrGet attrs "b3_opp_dak_schuin"),
     ("dak_type", attrGet attrs "b3_dak_type")]
  if lod == "0" then base
  else
    let lodKey := lod.replace "." ""
    base ++ [("volume_lod" ++ lodKey, attrGet attrs ("b3_volume_lod" ++ lodKey))]

/-- The per-feature loop of `cityjson_to_geodataframe`: skip features
without a main `Building`, extract LOD-0 geometry from it (possibly
raising), or 3-D geometry from its `BuildingPart`s, skip features without
geometry, and emit a row otherwise. -/
def cjRowsGo (lod : String) (transform : Option TransformObj) :
    List CJFeature → Except PyErr (List CJRow)
  | [] => .ok []
  | f :: rest =>
    match findBuilding f.cityObjects with
    | none => cjRowsGo lod transform rest
    | some (bid, b) =>
      let geoE : Except PyErr (Option PyGeom) :=
        if lod == "0" then extract_lod0_geometry b f.vertices transform
        else .ok (findPartGeometry f.vertices lod transform f.cityObjects)
      match geoE with
      | .error e => .error e
      | .ok none => cjRowsGo lod transform rest
      | .ok (some geo) =>
        match cjRowsGo lod transform rest with
        | .error e => .error e
        | .ok rows => .ok (⟨geo, cjRowAttrs lod bid b⟩ :: rows)

/-- The function `cityjson_to_geodataframe(cityjson_data, lod)`: empty
feature list yields an empty frame, otherwise the per-page transform is read
from this page's own `metadata` and every feature is decoded against it. -/
def cityjson_to_geodataframe (page : CityPage) (lod : String) : Except PyErr (List CJRow) :=
  if page.features.isEmpty then .ok []
  else cjRowsGo lod (page.metadata.bind (·.transform)) page.features

/-! ### Download engine model (`giskit/protocols/ogc_features.py`)

The HTTP transport (`httpx` client, `raise_for_status`, `.json()`) is the
oracle `net : Request → Except String PageJson` — an `error` is an
`httpx.HTTPError` carrying `str(e)`. PyProj reprojection and GeoDataFrame
`to_crs` are likewise oracles, as §6 of the design treats them (external
collaborators). The unbounded `while True` pagination loop is embedded with
explicit fuel. Query-parameter values keep their structure (the bbox is not
string-rendered). The concurrent `asyncio.gather` of a grid batch is
modelled by evaluating the batch's (deterministic) cell downloads in task
order, which is the order `gather` returns results in; the merge that the
claims speak about runs sequentially after that join point in the source as
well. -/

/-- Python truthiness of an optional int. -/
def truthyOptNat : Option Nat → Bool
  | none => false
  | some n => n != 0

/-- Python truthiness of an optional string. -/
def truthyOptStr : Option String → Bool
  | none => false
  | some t => t != ""

/-- Dictionary assignment `d[k] = v`: replace in place or append. -/
def setAssoc {β : Type} : List (String × β) → String → β → List (String × β)
  | [], k, v => [(k, v)]
  | (k', v') :: rest, k, v =>
    if k' == k then (k, v) :: rest else (k', v') :: setAssoc rest k v

/-- A query-parameter value. -/
inductive PVal where
  | s (v : String)
  | nat (v : Nat)
  | bboxv (minx miny maxx maxy : ℚ)
deriving DecidableEq, Repr

/-- The method `ProtocolQuirks.apply_to_params`: inject the format
parameter when required, then clamp a present `limit` to
`max_features_limit` (the `limit` values built by the client are always
ints, so the non-int arm of the clamp is unreachable). -/
def ProtocolQuirks.apply_to_params (q : ProtocolQuirks) (params : List (String × PVal)) :
    List (String × PVal) :=
  let p1 :=
    if q.require_format_param then setAssoc params q.format_param_name (.s q.format_param_value)
    else params
  if truthyOptNat q.max_features_limit && (List.lookup "limit" p1).isSome then
    p1.map (fun kv =>
      if kv.1 == "limit" then
        (kv.1,
          match kv.2 with
          | .nat n => .nat (min n (q.max_features_limit.getD 0))
          | v => v)
      else kv)
  else p1

/-- The method `ProtocolQuirks.apply_to_url`. -/
def ProtocolQuirks.apply_to_url (q : ProtocolQuirks) (url : String) : String :=
  if q.requires_trailing_slash && !url.endsWith "/" then url ++ "/" else url

/-- The method `ProtocolQuirks.get_timeout` (truthiness test: a timeout of
`0.0` also falls back to the default). -/
def ProtocolQuirks.get_timeout (q : ProtocolQuirks) (default : ℚ) : ℚ :=
  match q.custom_timeout with
  | some t => if t != 0 then t else default
  | none => default

/-- The method `ProtocolQuirks.apply_to_headers`: `headers.update(custom_headers)`. -/
def ProtocolQuirks.apply_to_headers (q : ProtocolQuirks) (headers : List (String × String)) :
    List (String × String) :=
  q.custom_headers.foldl (fun acc kv => setAssoc acc kv.1 kv.2) headers

/-- A bounding box `(minx, miny, maxx, maxy)`. -/
structure Bbox where
  minx : ℚ
  miny : ℚ
  maxx : ℚ
  maxy : ℚ
deriving DecidableEq, Repr

/-- The method `Protocol.validate_bbox` of `giskit/protocols/base.py`:
raises `ValueError` unless `minx < maxx` and `miny < maxy`. -/
def validate_bbox (b : Bbox) : Except PyErr Unit :=
  if b.minx ≥ b.maxx then .error (.valueError "Invalid bbox: minx >= maxx")
  else if b.miny ≥ b.maxy then .error (.valueError "Invalid bbox: miny >= maxy")
  else .ok ()

/-- Simplified `urllib.parse.urljoin` for the relative-path case used here:
a base ending in `/` gets the tail appended, otherwise the base's last path
segment is replaced (the very behaviour `requires_trailing_slash` works
around). -/
def urljoin (base rel : String) : String :=
  if base.endsWith "/" then base ++ rel
  else String.intercalate "/" ((base.splitOn "/").dropLast) ++ "/" ++ rel

/-- The bbox-crs URI `http://www.opengis.net/def/crs/EPSG/0/<code>` built
from `bbox_crs.split(":")[1]`. -/
def epsgUri (bboxCrs : String) : String :=
  "http://www.opengis.net/def/crs/EPSG/0/" ++ ((bboxCrs.splitOn ":").getD 1 "")

/-- Lines 134-146 of `get_features`: reproject the requested bbox corner
points when the `bbox_crs` quirk names a CRS other than `EPSG:4326`;
`reproject` is the external pyproj `Transformer` (from `EPSG:4326` to the
named CRS). Returns the request bbox and `bbox_crs_str`. -/
def computeRequestBbox (reproject : String → ℚ × ℚ → ℚ × ℚ) (q : ProtocolQuirks)
    (bbox : Bbox) : Bbox × String :=
  match q.bbox_crs with
  | some c =>
    if c != "" then
      if c != "EPSG:4326" then
        let lo := reproject c (bbox.minx, bbox.miny)
        let hi := reproject c (bbox.maxx, bbox.maxy)
        (⟨lo.1, lo.2, hi.1, hi.2⟩, c)
      else (bbox, "EPSG:4326")
    else (bbox, "EPSG:4326")
  | none => (bbox, "EPSG:4326")

/-- Lines 148-168 of `get_features`: the grid-walking decision. Grid
walking is considered only when `max_features_limit` is truthy AND
`bbox_crs_str` is one of the two metric CRSes, and within that only when
the request-bbox area exceeds `500 * 500`; the cell size is then fixed at
250 (metres). -/
def gridDecision (q : ProtocolQuirks) (bboxCrsStr : String) (rb : Bbox) : Bool × Option ℚ :=
  if truthyOptNat q.max_features_limit &&
      (bboxCrsStr == "EPSG:28992" || bboxCrsStr == "EPSG:3857") then
    let width := rb.maxx - rb.minx
    let height := rb.maxy - rb.miny
    let area := width * height
    if area > 500 * 500 then (true, some 250) else (false, none)
  else (false, none)

/-- Opaque payload of one downloaded feature row: either a decoded CityJSON
building row or a plain GeoJSON feature body (abstracted). -/
inductive FeatData where
  | cj (r : CJRow)
  | plainBody (v : Nat)
deriving DecidableEq, Repr

/-- One entry of a page's `features` array: a CityJSON-flavoured feature
(it has a `CityObjects` key) or a plain GeoJSON feature, whose properties
are carried as a row directly (`GeoDataFrame.from_features`). -/
inductive FeatureJson where
  | city (f : CJFeature)
  | plain (r : TRow FeatData)
deriving DecidableEq, Repr

/-- The membership test `"CityObjects" in first_feature`. -/
def FeatureJson.hasCityObjects : FeatureJson → Bool
  | .city _ => true
  | .plain _ => false

/-- Projection of a feature dict to what the CityJSON decoder reads from
it: a plain feature has no `vertices`/`CityObjects` keys, so `.get` yields
the empty defaults. -/
def FeatureJson.toCJ : FeatureJson → CJFeature
  | .city f => f
  | .plain _ => {}

/-- One entry of a page's `links` array. -/
structure LinkJson where
  rel : Option String := none
  href : Option String := none
deriving DecidableEq, Repr

/-- One HTTP response body, parsed. `plainCols` records which of the
temporal columns the plain features' properties populate (pages are assumed
format-homogeneous). -/
structure PageJson where
  numberMatched : Option Nat := none
  features : Option (List FeatureJson) := none
  links : List LinkJson := []
  metadata : Option PageMetadata := none
  plainCols : ColFlags := {}
deriving DecidableEq, Repr

/-- The page dict as the CityJSON decoder consumes it. -/
def PageJson.toCityPage (p : PageJson) : CityPage :=
  ⟨p.metadata, (p.features.getD []).map FeatureJson.toCJ⟩

/-- The `links` scan of `_download_collection` lines 492-497: the first
`rel == "next"` link's `href` (a missing `href` leaves `next_url` falsy). -/
def nextLink (links : List LinkJson) : Option String :=
  match links.find? (fun l => l.rel == some "next") with
  | some l => l.href
  | none => none

/-- One HTTP request as issued by the client: the first page request with
query parameters, or a verbatim follow of a `next` link. -/
inductive Request where
  | paramed (url : String) (params : List (String × PVal))
  | plainGet (url : String)
deriving DecidableEq, Repr

/-- A decoded CityJSON row as a GeoDataFrame row: of the temporal columns
only `identificatie` exists; its value is the decoder's `identificatie`
attribute (string-rendered; a JSON `null` is a NaN). -/
def cjRowToTRow (r : CJRow) : TRow FeatData :=
  { identificatie :=
      match attrGet r.attrs "identificatie" with
      | .s v => some v
      | .n v => some (toString v)
      | .null => none
    payload := .cj r }

/-- The GeoDataFrame built from decoded CityJSON rows
(`cityjson_to_geodataframe` lines 144-149): no rows yields a bare
`GeoDataFrame()` without columns. -/
def cityjsonGdfOfRows (rows : List CJRow) : TGdf FeatData :=
  if rows.isEmpty then ⟨{}, []⟩
  else ⟨{ hasIdent := true }, rows.map cjRowToTRow⟩

/-- `GeoDataFrame.from_features` for a plain-GeoJSON page. -/
def plainGdfOfPage (p : PageJson) : TGdf FeatData :=
  ⟨p.plainCols,
    (p.features.getD []).filterMap (fun f =>
      match f with
      | .plain r => some r
      | .city _ => none)⟩

/-- Column-wise union, as `pd.concat` unions columns (absent values become
NaN, which the row model already encodes as `none`). -/
def unionCols (a b : ColFlags) : ColFlags :=
  ⟨a.hasLokaal || b.hasLokaal, a.hasIdent || b.hasIdent, a.hasTerm || b.hasTerm,
   a.hasEind || b.hasEind, a.hasTijd || b.hasTijd, a.hasVersion || b.hasVersion⟩

/-- `pd.concat(gdfs, ignore_index=True)`. -/
def concatGdfs {α : Type} (gs : List (TGdf α)) : TGdf α :=
  ⟨gs.foldl (fun c g => unionCols c g.cols) {}, (gs.map TGdf.rows).flatten⟩

/-- String rendering of the modelled exceptions (`str(e)`), used by the
grid retry logic's keyword matching. -/
def PyErr.msg : PyErr → String
  | .attributeError n => "ProtocolQuirks object has no attribute " ++ n
  | .valueError m => m
  | .ogcFeaturesError m => m
  | .fuelOut => "pagination fuel exhausted"

/-- Lower-cased substring test, via `splitOn`. -/
def containsKw (hay kw : String) : Bool :=
  ((hay.toLower).splitOn kw).length > 1

/-- The retry predicate of `download_cell`: transient signals only. -/
def isRetryable (msg : String) : Bool :=
  ["timeout", "504", "503", "connection", "temporary"].any (containsKw msg)

/-- The pagination loop of `_download_collection` (lines 455-506) on an
already-fetched page: parse the page (CityJSON pages through the decoder
with this page's own embedded transform), accumulate non-empty frames, stop
at the feature cap or when no `next` link remains, else follow the link
verbatim. Returns the requests issued and the page frames (or the first
uncaught error). -/
def pagesGo (net : Request → Except String PageJson) (collection_id : String)
    (is_cityjson : Bool) (lod : String) (limit : Option Nat) :
    Nat → PageJson → List Request → List (TGdf FeatData) → Nat →
    List Request × Except PyErr (List (TGdf FeatData))
  | fuel, gj, trace, acc, total =>
    if (gj.features.getD []).isEmpty then (trace, .ok acc)
    else
      let gdfE : Except PyErr (TGdf FeatData) :=
        if is_cityjson then
          (cityjson_to_geodataframe gj.toCityPage lod).map cityjsonGdfOfRows
        else .ok (plainGdfOfPage gj)
      match gdfE with
      | .error e => (trace, .error e)
      | .ok gdf =>
        let acc1 := if !gdf.rows.isEmpty then acc ++ [gdf] else acc
        let total1 := if !gdf.rows.isEmpty then total + gdf.rows.length else total
        if truthyOptNat limit && total1 ≥ limit.getD 0 then (trace, .ok acc1)
        else
          match nextLink gj.links with
          | none => (trace, .ok acc1)
          | some href =>
            match fuel with
            | 0 => (trace, .error .fuelOut)
            | fuel' + 1 =>
              let req : Request := .plainGet href
              match net req with
              | .error m =>
                (trace ++ [req],
                  .error (.ogcFeaturesError
                    ("Failed to download collection " ++ collection_id ++ ": " ++ m)))
              | .ok gj' =>
                pagesGo net collection_id is_cityjson lod limit fuel' gj'
                  (trace ++ [req]) acc1 total1

/-- The method `OGCFeaturesProtocol._download_collection`. The read of the
undeclared quirk attribute `omit_bbox_crs_param` happens while building the
query parameters, before the first `client.get`; `httpx.HTTPError`s are
wrapped into `OGCFeaturesError`, every other exception escapes raw. -/
def download_collection (net : Request → Except String PageJson)
    (parseIso : String → Option String) (now : String) (fuel : Nat)
    (q : ProtocolQuirks) (base_url : String) (max_features_per_request : Nat)
    (collection_id : String) (bbox : Bbox) (limit : Option Nat) (temporal : String) :
    List Request × Except PyErr (TGdf FeatData) :=
  let actual := if collection_id.startsWith "lod" then "pand" else collection_id
  let url := urljoin base_url ("collections/" ++ actual ++ "/items")
  let page_limit :=
    if truthyOptNat q.max_features_limit then q.max_features_limit.getD 0
    else min (limit.getD max_features_per_request) 1000
  let params0 : List (String × PVal) :=
    [("bbox", .bboxv bbox.minx bbox.miny bbox.maxx bbox.maxy), ("limit", .nat page_limit)]
  match q.getattrName "omit_bbox_crs_param" with
  | .error e => ([], .error e)
  | .ok ob =>
    let params1 :=
      if !ob.truthy then
        if truthyOptStr q.bbox_crs && (q.bbox_crs.getD "") != "EPSG:4326" then
          setAssoc params0 "bbox-crs" (.s (epsgUri (q.bbox_crs.getD "")))
        else setAssoc params0 "bbox-crs" (.s "http://www.opengis.net/def/crs/OGC/1.3/CRS84")
      else params0
    let params := q.apply_to_params params1
    let req0 : Request := .paramed url params
    match net req0 with
    | .error m =>
      ([req0],
        .error (.ogcFeaturesError
          ("Failed to download collection " ++ collection_id ++ ": " ++ m)))
    | .ok gj =>
      let is_cityjson :=
        match gj.features with
        | some (f :: _) => f.hasCityObjects
        | _ => false
      let lod :=
        if is_cityjson && collection_id.startsWith "lod" then
          match (collection_id.drop 3).toList with
          | [a, b] => String.mk [a, '.', b]
          | _ => "0"
        else "0"
      match pagesGo net collection_id is_cityjson lod limit fuel gj [req0] [] 0 with
      | (trace, .error e) => (trace, .error e)
      | (trace, .ok gdfs) =>
        if gdfs.isEmpty then (trace, .ok ⟨{}, []⟩)
        else
          let combined := concatGdfs gdfs
          let filtered := (apply_temporal_filter parseIso now combined temporal).1
          let final :=
            if truthyOptNat limit && filtered.rows.length > limit.getD 0 then
              ⟨filtered.cols, filtered.rows.take (limit.getD 0)⟩
            else filtered
          (trace, .ok final)

/-- Modelled from the spec: `giskit.core.spatial.subdivide_bbox`, which
`_download_collection_with_grid` imports but which is absent from the
repository snapshot (`giskit/core/spatial.py` defines no such function).
Per §4.4: "subdivide the bbox into a regular grid of fixed cell-side
length". Cells are enumerated row-major; no claim below depends on the cell
layout. -/
def subdivide_bbox (b : Bbox) (cellSize : ℚ) : List Bbox :=
  let nx := ((b.maxx - b.minx) / cellSize).ceil.toNat
  let ny := ((b.maxy - b.miny) / cellSize).ceil.toNat
  (List.range ny).flatMap (fun j =>
    (List.range nx).map (fun i =>
      ⟨b.minx + i * cellSize, b.miny + j * cellSize,
       min (b.minx + (i + 1) * cellSize) b.maxx,
       min (b.miny + (j + 1) * cellSize) b.maxy⟩))

/-- The retry wrapper `download_cell` of `_download_collection_with_grid`
(lines 270-305): up to `attempts` tries, retrying (after a backoff sleep,
irrelevant to the result) only when the error message carries a transient
keyword; the wrapped download is deterministic here, so every attempt
produces the same outcome. Returns the requests issued across attempts and
`(gdf, None)` or `(None, error_msg)`. -/
def retryCell (dlTrace : List Request) (dlRes : Except PyErr (TGdf FeatData)) :
    Nat → List Request × Except String (TGdf FeatData)
  | 0 => ([], .error "Max retries exceeded")
  | n + 1 =>
    match dlRes with
    | .ok g => (dlTrace, .ok g)
    | .error e =>
      if n != 0 && isRetryable (PyErr.msg e) then
        let next := retryCell dlTrace dlRes n
        (dlTrace ++ next.1, next.2)
      else (dlTrace, .error (PyErr.msg e))

/-- Accumulator of the grid merge loop (lines 255-257): the running
deduplication seen-set, the accumulated cell frames and the running feature
total. -/
structure GridMergeState (α : Type) where
  seen : List (Option String) := []
  gdfs : List (TGdf α) := []
  total : Nat := 0
deriving DecidableEq, Repr

/-- Processing of one settled cell result (lines 318-343): failed or empty
cells are skipped; when the frame has an `identificatie` column, rows whose
identifier is already in the seen-set are masked out and the survivors'
identifiers added to it; a frame left non-empty is appended and counted. -/
def gridMergeCell {α : Type} (st : GridMergeState α) (res : Except String (TGdf α)) :
    GridMergeState α :=
  match res with
  | .error _ => st
  | .ok gdf =>
    if gdf.rows.isEmpty then st
    else
      let gdf1 : TGdf α :=
        if gdf.cols.hasIdent then
          ⟨gdf.cols, gdf.rows.filter (fun r => !(st.seen.contains r.identificatie))⟩
        else gdf
      let seen1 :=
        if gdf.cols.hasIdent then st.seen ++ gdf1.rows.map (fun r => r.identificatie)
        else st.seen
      if !gdf1.rows.isEmpty then
        ⟨seen1, st.gdfs ++ [gdf1], st.total + gdf1.rows.length⟩
      else
        ⟨seen1, st.gdfs, st.total⟩

/-- The merge of a sequence of settled cell results in order. -/
def gridMergeRun {α : Type} (st : GridMergeState α) (results : List (Except String (TGdf α))) :
    GridMergeState α :=
  results.foldl gridMergeCell st

/-- The batching of `range(0, len(cells), max_concurrent)`; chunk size `0`
would be a `ValueError` in Python (`range` step), never reached because the
grid path always passes a positive ceiling. -/
def toBatches {γ : Type} (mc : Nat) : List γ → List (List γ)
  | [] => []
  | x :: xs =>
    if mc = 0 then []
    else (x :: xs).take mc :: toBatches mc ((x :: xs).drop mc)
  termination_by l => l.length
  decreasing_by simp [List.length_drop]; omega

/-- The batch loop of `_download_collection_with_grid`: settle one batch of
cell downloads, merge its results, and stop launching further batches once
the running total reaches the cap. -/
def gridBatchesGo {α : Type} (dl : Bbox → List Request × Except String (TGdf α))
    (limit : Option Nat) :
    List Request × GridMergeState α → List (List Bbox) → List Request × GridMergeState α
  | acc, [] => acc
  | acc, batch :: rest =>
    let settled := batch.map dl
    let trace1 := acc.1 ++ (settled.map Prod.fst).flatten
    let st1 := gridMergeRun acc.2 (settled.map Prod.snd)
    if truthyOptNat limit && st1.total ≥ limit.getD 0 then (trace1, st1)
    else gridBatchesGo dl limit (trace1, st1) rest

/-- The method `OGCFeaturesProtocol._download_collection_with_grid`:
subdivide, download cells in bounded-concurrency batches with per-cell
retry (each cell download runs with `limit=None`), merge with cross-cell
deduplication, then cap the combined frame. -/
def download_collection_with_grid (net : Request → Except String PageJson)
    (parseIso : String → Option String) (now : String) (fuel : Nat)
    (q : ProtocolQuirks) (base_url : String) (max_features_per_request : Nat)
    (collection_id : String) (bbox : Bbox) (grid_cell_size : ℚ)
    (limit : Option Nat) (temporal : String) (max_concurrent : Nat) :
    List Request × Except PyErr (TGdf FeatData) :=
  let cells := subdivide_bbox bbox grid_cell_size
  let dl := fun (cb : Bbox) =>
    let r := download_collection net parseIso now fuel q base_url max_features_per_request
      collection_id cb none temporal
    retryCell r.1 r.2 3
  let run := gridBatchesGo dl limit ([], {}) (toBatches max_concurrent cells)
  let st := run.2
  if st.gdfs.isEmpty then (run.1, .ok ⟨{}, []⟩)
  else
    let combined := concatGdfs st.gdfs
    let final :=
      if truthyOptNat limit && combined.rows.length > limit.getD 0 then
        ⟨combined.cols, combined.rows.take (limit.getD 0)⟩
      else combined
    (run.1, .ok final)

/-- Conversion of a dynamically-read attribute value to the
`max_concurrent` argument (dead code: the read always raises first). -/
def qvToNat : QV → Nat
  | .onat (some n) => n
  | _ => 0

/-- The column assignment `gdf["_collection"] = collection_id`, carried in
the payload. -/
def tagCollection {α : Type} (cid : String) (g : TGdf α) : TGdf (String × α) :=
  ⟨g.cols,
    g.rows.map (fun r =>
      ⟨r.lokaal_id, r.identificatie, r.termination_date, r.eind_registratie,
       r.tijdstip_registratie, r.version, (cid, r.payload)⟩)⟩

/-- The per-collection body of the `get_features` download loop (lines
170-196): dispatch to the grid or the direct path — the grid call first
evaluating its `self.quirks.max_concurrent_cells` argument — and swallow
any exception with a printed warning, keeping the issued requests and
appending the non-empty frame tagged with its `_collection`. -/
def getFeaturesStep (net : Request → Except String PageJson)
    (parseIso : String → Option String) (now : String) (fuel : Nat)
    (q : ProtocolQuirks) (base_url : String) (max_features_per_request : Nat)
    (rb : Bbox × String) (gd : Bool × Option ℚ) (limit : Option Nat) (temporal : String)
    (acc : List Request × List (TGdf (String × FeatData))) (cid : String) :
    List Request × List (TGdf (String × FeatData)) :=
  let res : List Request × Except PyErr (TGdf FeatData) :=
    if gd.1 && gd.2.isSome then
      match q.getattrName "max_concurrent_cells" with
      | .error e => ([], .error e)
      | .ok mc =>
        download_collection_with_grid net parseIso now fuel q base_url
          max_features_per_request cid rb.1 (gd.2.getD 0) limit temporal (qvToNat mc)
    else
      download_collection net parseIso now fuel q base_url
        max_features_per_request cid rb.1 limit temporal
  match res.2 with
  | .error _ => (acc.1 ++ res.1, acc.2)
  | .ok gdf =>
    if !gdf.rows.isEmpty then (acc.1 ++ res.1, acc.2 ++ [tagCollection cid gdf])
    else (acc.1 ++ res.1, acc.2)

/-- The method `OGCFeaturesProtocol.get_features` for an explicit collection
list: validate the bbox, reproject it per the `bbox_crs` quirk, decide on
grid walking, then download each collection — swallowing any per-collection
exception with a printed warning — and combine, reprojecting the combined
frame via the external `to_crs` when a different output CRS was requested.
Returns the issued requests and the resulting frame. -/
def get_features (net : Request → Except String PageJson)
    (reproject : String → ℚ × ℚ → ℚ × ℚ)
    (toCrs : String → TGdf (String × FeatData) → TGdf (String × FeatData))
    (parseIso : String → Option String) (now : String) (fuel : Nat)
    (q : ProtocolQuirks) (base_url : String) (max_features_per_request : Nat)
    (bbox : Bbox) (layers : List String) (crs : String) (limit : Option Nat)
    (temporal : String) : Except PyErr (List Request × TGdf (String × FeatData)) :=
  match validate_bbox bbox with
  | .error e => .error e
  | .ok _ =>
    if layers.isEmpty then .ok ([], ⟨{}, []⟩)
    else
      let rb := computeRequestBbox reproject q bbox
      let gd := gridDecision q rb.2 rb.1
      let folded := layers.foldl
        (getFeaturesStep net parseIso now fuel q base_url max_features_per_request rb gd
          limit temporal) ([], [])
      if folded.2.isEmpty then .ok (folded.1, ⟨{}, []⟩)
      else
        let combined := concatGdfs folded.2
        let final :=
          if crs != "EPSG:4326" && !combined.rows.isEmpty then toCrs crs combined
          else combined
        .ok (folded.1, final)

/-! ### Concrete instances and auxiliary definitions used by the theorems -/

/-- Quirks declaring a feature ceiling but no `bbox_crs` (the common case of
a WGS84 upstream with a low limit). -/
def qC6 : ProtocolQuirks := { max_features_limit := some 100 }

/-- A 1000×1000 request bbox: area `10^6`, far above the `500*500`
threshold. -/
def bboxC6 : Bbox := ⟨0, 0, 1000, 1000⟩

/-- A terminated row (non-empty `eind_registratie`). -/
def r1C10 : TRow Nat :=
  { identificatie := some "x", eind_registratie := some "2023-06-01T00:00:00Z", payload := 0 }

/-- An active row. -/
def r2C10 : TRow Nat := { identificatie := some "y", payload := 1 }

/-- A frame with an identifier column and one terminated row, on which the
`latest` strategy is not the identity. -/
def gdfC10 : TGdf Nat := ⟨{ hasIdent := true, hasEind := true }, [r1C10, r2C10]⟩

/-- A page whose single building has a LOD-0 ring of three boundary
indices of which one is out of range, leaving two resolved points. -/
def pageC5 : CityPage :=
  { metadata := some { transform := some { scale := some (1, 1, 1), translate := some (0, 0, 0) } }
    features :=
      [{ vertices := [⟨0, 0, none⟩, ⟨1, 1, none⟩]
         cityObjects :=
           [("b1",
             { type := some "Building"
               geometry := [{ lod := some "0", boundaries := .multiSurface [[[0, 1, 7]]] }] })] }] }

/-- Vertex array of the C4 witness: compressed integer coordinates. -/
def vW : List Vertex := [⟨0, 0, some 0⟩, ⟨10, 0, some 0⟩, ⟨10, 10, some 5⟩]

/-- A building with a LOD-0 footprint over `vW`. -/
def co0W : CityObject :=
  { type := some "Building"
    geometry := [{ lod := some "0", boundaries := .multiSurface [[[0, 1, 2]]] }] }

/-- A building part with a LOD-2.2 solid over `vW`. -/
def co3W : CityObject :=
  { type := some "BuildingPart"
    geometry := [{ lod := some "2.2", boundaries := .solid [[[[0, 1, 2]]]] }] }

/-- Scale of the C4 witness transform (millimetre compression). -/
def scW : ℚ × ℚ × ℚ := (1/1000, 1/1000, 1/1000)

/-- Translate of the C4 witness transform (RD offsets). -/
def tlW : ℚ × ℚ × ℚ := (80000, 429000, 0)

/-- The LOD-0 decode of the witness ring: each vertex scaled then
translated, x/y only. -/
def ringW : List (ℚ × ℚ) := ringCoords2 (some (scW, tlW)) vW [0, 1, 2]

/-- The LOD-2.2 decode of the witness solid: one surface, x/y/z per
component. -/
def polysW : List (List (ℚ × ℚ × ℚ)) := [ringCoords3 (some (scW, tlW)) vW [0, 1, 2]]

/-- Quirk registry entry produced by `to_protocol_quirks` from a
`QuirkDefinition` that sets no quirk field. -/
def svcEntryCX : QEntry := QuirkDefinition.to_protocol_quirks { name := "svc-format" }

/-- The building of the C3 feature: one LOD-0 ring over three vertices. -/
def coC3 : CityObject :=
  { type := some "Building"
    geometry := [{ lod := some "0", boundaries := .multiSurface [[[0, 1, 2]]] }] }

/-- A feature identical for both C3 pages. -/
def cjFeatC3 : CJFeature :=
  { vertices := [⟨0, 0, some 0⟩, ⟨10, 0, some 0⟩, ⟨10, 10, some 0⟩]
    cityObjects := [("b1", coC3)] }

/-- First C3 page: unit scale. -/
def pageC3a : CityPage :=
  { metadata := some { transform := some { scale := some (1, 1, 1), translate := some (0, 0, 0) } }
    features := [cjFeatC3] }

/-- Second C3 page: same vertices and CityObjects, different Transform
(z-scale 2) — a difference LOD-0 decoding never consults. -/
def pageC3b : CityPage :=
  { metadata := some { transform := some { scale := some (1, 1, 2), translate := some (0, 0, 0) } }
    features := [cjFeatC3] }

/-- Shift of a 2-D point along x. -/
def shiftPt2 (d : ℚ) (p : ℚ × ℚ) : ℚ × ℚ := (p.1 + d, p.2)

/-- Shift of a 3-D point along x. -/
def shiftPt3 (d : ℚ) (p : ℚ × ℚ × ℚ) : ℚ × ℚ × ℚ := (p.1 + d, p.2.1, p.2.2)

/-- Shift of a decoded geometry along x. -/
def shiftGeom (d : ℚ) : PyGeom → PyGeom
  | .polygon r => .polygon (r.map (shiftPt2 d))
  | .multiPolygon ps => .multiPolygon (ps.map (List.map (shiftPt3 d)))

/-- Shift of a decoded row along x (attributes untouched). -/
def shiftRow (d : ℚ) (r : CJRow) : CJRow := ⟨shiftGeom d r.geometry, r.attrs⟩

/-- The x-coordinate of the first point of the first decoded row's
geometry, when there is one. -/
def firstX : List CJRow → Option ℚ
  | [] => none
  | r :: _ =>
    match r.geometry with
    | .polygon (p :: _) => some p.1
    | .polygon [] => none
    | .multiPolygon ((p :: _) :: _) => some p.1
    | .multiPolygon ([] :: _) => none
    | .multiPolygon [] => none

/-- A translate triple with the x component shifted by `d`. -/
def shiftTl (d : ℚ) (tl : ℚ × ℚ × ℚ) : ℚ × ℚ × ℚ := (tl.1 + d, tl.2.1, tl.2.2)

/-- A page assembled from a full transform and a feature list. -/
def mkPage (sc tl : ℚ × ℚ × ℚ) (feats : List CJFeature) : CityPage :=
  { metadata := some { transform := some { scale := some sc, translate := some tl } }
    features := feats }

/-- A grid-cell frame row carrying an identifier. -/
def gRow (i : String) (n : Nat) : TRow Nat := { identificatie := some i, payload := n }

/-- First C7 cell result: the identifier `"a"` occurs twice within one
cell's own frame. -/
def cellA7 : TGdf Nat := ⟨{ hasIdent := true }, [gRow "a" 0, gRow "a" 1]⟩

/-- Second C7 cell result: `"a"` again, from an adjacent cell. -/
def cellB7 : TGdf Nat := ⟨{ hasIdent := true }, [gRow "a" 2]⟩

/-- Rows of the merged output of a grid-walked download, for a list of
settled cell results. -/
def mergedRows {α : Type} (results : List (Except String (TGdf α))) : List (TRow α) :=
  (concatGdfs (gridMergeRun {} results).gdfs).rows

/-- Number of output rows carrying the identifier `i`. -/
def countId {α : Type} (i : String) (rows : List (TRow α)) : Nat :=
  rows.countP (fun r => r.identificatie == some i)

/-- The identifier `i` appears in the frame of some successful cell that
has the identifier column. -/
def appearsId {α : Type} (i : String) (results : List (Except String (TGdf α))) : Prop :=
  ∃ g : TGdf α, Except.ok g ∈ results ∧ g.cols.hasIdent = true ∧
    ∃ r ∈ g.rows, r.identificatie = some i

/-- All rows of all successful cell frames, in processing order (the
order the merge of `_download_collection_with_grid` scans them). -/
def okRows {α : Type} (results : List (Except String (TGdf α))) : List (TRow α) :=
  (results.map (fun res =>
    match res with
    | .ok g => g.rows
    | .error _ => [])).flatten

/-- A frame is well-formed when a missing `identificatie` column means no
row carries a value in it (a pandas frame cannot hold values in a column it
does not have). -/
def wfCells {α : Type} (results : List (Except String (TGdf α))) : Prop :=
  ∀ g : TGdf α, Except.ok g ∈ results → g.cols.hasIdent = false →
    ∀ r ∈ g.rows, r.identificatie = none

/-- Within each single cell frame (with the column), identifier values are
pairwise distinct. -/
def cellsNodup {α : Type} (results : List (Except String (TGdf α))) : Prop :=
  ∀ g : TGdf α, Except.ok g ∈ results → g.cols.hasIdent = true →
    (g.rows.map (fun r => r.identificatie)).Nodup

/-- Newest-first row A of the C9 tie: same identifier and timestamp as
`rB9`, different body. -/
def rA9 : TRow Nat :=
  { identificatie := some "x", tijdstip_registratie := some "2024-01-01T00:00:00Z", payload := 0 }

/-- Row B of the C9 tie. -/
def rB9 : TRow Nat :=
  { identificatie := some "x", tijdstip_registratie := some "2024-01-01T00:00:00Z", payload := 1 }

/-- C9 frame in one input order. -/
def g9a : TGdf Nat := ⟨{ hasIdent := true, hasTijd := true }, [rA9, rB9]⟩

/-- C9 frame with the two rows transposed. -/
def g9b : TGdf Nat := ⟨{ hasIdent := true, hasTijd := true }, [rB9, rA9]⟩

/-- Key `x` sorts strictly after key `y` in the descending, NaN-last sort
order. -/
def strictlyOlder (x y : Option String) : Prop := optDescLe y x = true ∧ x ≠ y

/-- The LOD-0 decode of the C3 witness feature under the identity-like
transform. -/
def rowsC3 : List CJRow :=
  [⟨.polygon (ringCoords2 (some ((1, 1, 1), (0, 0, 0))) cjFeatC3.vertices [0, 1, 2]),
    cjRowAttrs "0" "b1" coC3⟩]

/-- First cell of the C7 amended witness: identifiers `"b"`, `"c"`. -/
def wCellA : TGdf Nat := ⟨{ hasIdent := true }, [gRow "b" 0, gRow "c" 1]⟩

/-- Second cell of the C7 amended witness: `"b"` straddles both cells. -/
def wCellB : TGdf Nat := ⟨{ hasIdent := true }, [gRow "b" 2]⟩

/-- Settled cell results of the C7 amended witness. -/
def wRes : List (Except String (TGdf Nat)) := [Except.ok wCellA, Except.ok wCellB]

/-- The rows of one settled cell result (a failed cell contributes none). -/
def cellRows {α : Type} : Except String (TGdf α) → List (TRow α)
  | .ok g => g.rows
  | .error _ => []

/-- The rows accumulated so far in a grid-merge state, in frame order. -/
def stateRows {α : Type} (st : GridMergeState α) : List (TRow α) :=
  (st.gdfs.map TGdf.rows).flatten

/-- The identifier `i` occurs in this settled cell's (successful,
identifier-bearing) frame. -/
def appearsInCell {α : Type} (i : String) (res : Except String (TGdf α)) : Prop :=
  ∃ g : TGdf α, res = Except.ok g ∧ g.cols.hasIdent = true ∧
    ∃ r ∈ g.rows, r.identificatie = some i

/-- The `rows1` stage of `latestFilter` (the `eind_registratie` pre-filter
of `_apply_temporal_filter` lines 570-578), named for the C9 analysis. -/
def eindRows {α : Type} (g : TGdf α) : List (TRow α) :=
  if g.cols.hasEind then
    g.rows.filter (fun r =>
      match r.eind_registratie with
      | none => true
      | some t => t == "")
  else g.rows

/-- C9 amended witness row: identifier `x`, the newer timestamp. -/
def rC9w1 : TRow Nat :=
  { identificatie := some "x", tijdstip_registratie := some "2024-01-02T00:00:00Z", payload := 0 }

/-- C9 amended witness row: identifier `x`, the older timestamp. -/
def rC9w2 : TRow Nat :=
  { identificatie := some "x", tijdstip_registratie := some "2024-01-01T00:00:00Z", payload := 1 }

/-- C9 amended witness frame, newer row first. -/
def gC9w : TGdf Nat := ⟨{ hasIdent := true, hasTijd := true }, [rC9w1, rC9w2]⟩

/-- C9 amended witness frame with the two rows transposed. -/
def gC9wT : TGdf Nat := ⟨{ hasIdent := true, hasTijd := true }, [rC9w2, rC9w1]⟩

/-! ### Theorems -/

/-- C6, counterexample: with `max_features_limit = 100` declared and a
request bbox of area `10^6 > 500*500` but no `bbox_crs` quirk (so the
request CRS stays `EPSG:4326`), `get_features` does **not** engage grid
walking, refuting the claimed "if and only if": the code additionally
requires the request CRS to be `EPSG:28992` or `EPSG:3857`. -/
theorem c6_counterexample :
    truthyOptNat qC6.max_features_limit = true ∧
    (bboxC6.maxx - bboxC6.minx) * (bboxC6.maxy - bboxC6.miny) > 500 * 500 ∧
    computeRequestBbox (fun _ p => p) qC6 bboxC6 = (bboxC6, "EPSG:4326") ∧
    gridDecision qC6 "EPSG:4326" bboxC6 = (false, none) := by
  refine ⟨rfl, by norm_num [bboxC6], rfl, rfl⟩

/-- C6, amended: grid walking is engaged iff the quirks declare a (truthy)
`max_features_limit` AND the request CRS is `EPSG:28992` or `EPSG:3857` AND
the request-bbox area exceeds `500*500`; in exactly that case the cell size
250 is set, and otherwise the collection goes through the direct
single-bbox path. -/
theorem c6_amended (q : ProtocolQuirks) (crsStr : String) (rb : Bbox) :
    ((gridDecision q crsStr rb).1 = true ↔
      (truthyOptNat q.max_features_limit = true ∧
        (crsStr = "EPSG:28992" ∨ crsStr = "EPSG:3857") ∧
        (rb.maxx - rb.minx) * (rb.maxy - rb.miny) > 500 * 500)) ∧
    (gridDecision q crsStr rb).2 =
      (if (gridDecision q crsStr rb).1 = true then some (250 : ℚ) else none) := by
  simp only [gridDecision]
  split_ifs with h1 h2 <;>
    simp_all [Bool.and_eq_true, Bool.or_eq_true, beq_iff_eq]

/-- C8: quirk resolution is a total lookup — for provider, protocol and
service names with no provider-level and no service-level configuration
(under either service key form), both `get_quirks` and `get_service_quirks`
return the zero-value `ProtocolQuirks` whose every field is its default;
being total Lean functions, they raise nothing. -/
theorem c8_unknown_names_default (t : QuirksTable) (p proto s : String)
    (hb : tableFind t p proto = none)
    (h1 : tableFind t (p ++ "-" ++ s) proto = none)
    (h2 : tableFind t s proto = none) :
    get_quirks t p proto = ({} : ProtocolQuirks) ∧
    get_service_quirks t p proto s = ({} : ProtocolQuirks) := by
  have hq : get_quirks t p proto = ({} : ProtocolQuirks) := by
    unfold get_quirks
    rw [hb]
  refine ⟨hq, ?_⟩
  unfold get_service_quirks
  rw [h1, h2, hq]

/-- C8 witness: the empty registry with fresh names. -/
theorem c8_witness :
    tableFind [] "prov" "proto" = none ∧
    tableFind [] ("prov" ++ "-" ++ "svc") "proto" = none ∧
    tableFind [] "svc" "proto" = none ∧
    get_service_quirks [] "prov" "proto" "svc" = ({} : ProtocolQuirks) :=
  ⟨rfl, rfl, rfl, (c8_unknown_names_default [] "prov" "proto" "svc" rfl rfl rfl).2⟩

/-- C2, counterexample: in a registry where the service-level entry was
built by `QuirkDefinition.to_protocol_quirks` (the path every YAML-loaded
quirk takes), the overlay is driven by pydantic's fields-set — which that
constructor fills with all 18 passed fields, defaults included — not by
which fields are non-default. Resolving `cityjson/format` for service
`svc`, the provider-level `custom_timeout = 60` is overwritten by the
service's explicitly-passed default `None`, while the spec's non-default
overlay would keep `60`. -/
theorem c2_counterexample :
    get_service_quirks quirksTableCX "cityjson" "format" "svc" ≠
      specOverlayNonDefault (get_quirks quirksTableCX "cityjson" "format") svcEntryCX.val ∧
    (get_service_quirks quirksTableCX "cityjson" "format" "svc").custom_timeout = none ∧
    (specOverlayNonDefault (get_quirks quirksTableCX "cityjson" "format")
        svcEntryCX.val).custom_timeout = some 60 := by
  refine ⟨?_, by decide, by decide⟩
  intro h
  have := congrArg ProtocolQuirks.custom_timeout h
  revert this
  decide

/-- C2, amended: for any registry in which a service-level entry `e` exists
(under `provider-service`, or under `service` when the former is absent),
the resolved quirks equal the provider-level quirks with exactly the
fields of `e`'s pydantic fields-set (the explicitly-passed constructor
arguments, `model_dump(exclude_unset=True)`) overwritten — each of the 21
fields independently. Explicitly-set is not the same as non-default:
`to_protocol_quirks` marks all 18 passed fields as set. -/
theorem c2_amended (t : QuirksTable) (p proto s : String) (e : QEntry)
    (h : tableFind t (p ++ "-" ++ s) proto = some e ∨
      (tableFind t (p ++ "-" ++ s) proto = none ∧ tableFind t s proto = some e)) :
    get_service_quirks t p proto s =
      mergeQuirks (get_quirks t p proto) e.val e.fset ∧
    ∀ base, base = get_quirks t p proto →
      (get_service_quirks t p proto s).custom_timeout =
        (if e.fset.custom_timeout then e.val.custom_timeout else base.custom_timeout) ∧
      (get_service_quirks t p proto s).max_features_limit =
        (if e.fset.max_features_limit then e.val.max_features_limit else base.max_features_limit) ∧
      (get_service_quirks t p proto s).bbox_crs =
        (if e.fset.bbox_crs then e.val.bbox_crs else base.bbox_crs) ∧
      (get_service_quirks t p proto s).requires_trailing_slash =
        (if e.fset.requires_trailing_slash then e.val.requires_trailing_slash
          else base.requires_trailing_slash) ∧
      (get_service_quirks t p proto s).require_format_param =
        (if e.fset.require_format_param then e.val.require_format_param
          else base.require_format_param) ∧
      (get_service_quirks t p proto s).format_param_name =
        (if e.fset.format_param_name then e.val.format_param_name else base.format_param_name) ∧
      (get_service_quirks t p proto s).format_param_value =
        (if e.fset.format_param_value then e.val.format_param_value else base.format_param_value) ∧
      (get_service_quirks t p proto s).pagination_broken =
        (if e.fset.pagination_broken then e.val.pagination_broken else base.pagination_broken) ∧
      (get_service_quirks t p proto s).force_crs_in_query =
        (if e.fset.force_crs_in_query then e.val.force_crs_in_query else base.force_crs_in_query) ∧
      (get_service_quirks t p proto s).custom_headers =
        (if e.fset.custom_headers then e.val.custom_headers else base.custom_headers) ∧
      (get_service_quirks t p proto s).empty_collections_return_404 =
        (if e.fset.empty_collections_return_404 then e.val.empty_collections_return_404
          else base.empty_collections_return_404) ∧
      (get_service_quirks t p proto s).format_is_cityjson =
        (if e.fset.format_is_cityjson then e.val.format_is_cityjson else base.format_is_cityjson) ∧
      (get_service_quirks t p proto s).cityjson_version =
        (if e.fset.cityjson_version then e.val.cityjson_version else base.cityjson_version) ∧
      (get_service_quirks t p proto s).has_per_page_transform =
        (if e.fset.has_per_page_transform then e.val.has_per_page_transform
          else base.has_per_page_transform) ∧
      (get_service_quirks t p proto s).transform_applies_to_vertices =
        (if e.fset.transform_applies_to_vertices then e.val.transform_applies_to_vertices
          else base.transform_applies_to_vertices) ∧
      (get_service_quirks t p proto s).vertices_are_integers =
        (if e.fset.vertices_are_integers then e.val.vertices_are_integers
          else base.vertices_are_integers) ∧
      (get_service_quirks t p proto s).has_lod_hierarchy =
        (if e.fset.has_lod_hierarchy then e.val.has_lod_hierarchy else base.has_lod_hierarchy) ∧
      (get_service_quirks t p proto s).geometry_in_city_objects =
        (if e.fset.geometry_in_city_objects then e.val.geometry_in_city_objects
          else base.geometry_in_city_objects) ∧
      (get_service_quirks t p proto s).description =
        (if e.fset.description then e.val.description else base.description) ∧
      (get_service_quirks t p proto s).issue_url =
        (if e.fset.issue_url then e.val.issue_url else base.issue_url) ∧
      (get_service_quirks t p proto s).workaround_date =
        (if e.fset.workaround_date then e.val.workaround_date else base.workaround_date) := by
  have hm : get_service_quirks t p proto s = mergeQuirks (get_quirks t p proto) e.val e.fset := by
    unfold get_service_quirks
    rcases h with h | ⟨h1, h2⟩
    · rw [h]
    · rw [h1, h2]
  refine ⟨hm, ?_⟩
  intro base hbase
  subst hbase
  rw [hm]
  exact ⟨rfl, rfl, rfl, rfl, rfl, rfl, rfl, rfl, rfl, rfl, rfl, rfl, rfl, rfl, rfl, rfl, rfl,
    rfl, rfl, rfl, rfl⟩

/-- C2 amended, witness: the counterexample registry instantiates the
amended statement through the plain-service key. -/
theorem c2_amended_witness :
    (tableFind quirksTableCX ("cityjson" ++ "-" ++ "svc") "format" = none ∧
      tableFind quirksTableCX "svc" "format" = some svcEntryCX) ∧
    get_service_quirks quirksTableCX "cityjson" "format" "svc" =
      mergeQuirks (get_quirks quirksTableCX "cityjson" "format") svcEntryCX.val
        svcEntryCX.fset :=
  ⟨⟨by decide, by decide⟩,
    (c2_amended quirksTableCX "cityjson" "format" "svc" svcEntryCX
      (Or.inr ⟨by decide, by decide⟩)).1⟩

/-- C10, counterexample: the strategy string `"bogus"` is none of
`latest`/`active`/`all` and no date at all, yet the filter does not behave
as `latest`: the dash-count guard sends it past every branch, the frame is
returned unfiltered (the terminated row `r1C10` survives) and no warning is
produced; `latest` on the same frame drops `r1C10`. -/
theorem c10_counterexample :
    apply_temporal_filter (fun _ => none) "2026-01-01T00:00:00Z" gdfC10 "bogus"
      = (gdfC10, false) ∧
    (apply_temporal_filter (fun _ => none) "2026-01-01T00:00:00Z" gdfC10 "latest").1.rows
      = [r2C10] ∧
    apply_temporal_filter (fun _ => none) "2026-01-01T00:00:00Z" gdfC10 "bogus" ≠
      apply_temporal_filter (fun _ => none) "2026-01-01T00:00:00Z" gdfC10 "latest" := by
  refine ⟨by decide, by decide, by decide⟩

/-- C5, counterexample: a LOD-0 surface whose ring resolves to two points
(one of its three boundary indices is out of range) is not skipped: the
decoder calls `Polygon` on it without a guard and the `ValueError` escapes
`cityjson_to_geodataframe` — and no decode-error count exists anywhere in
the decoder. -/
theorem c5_counterexample :
    cityjson_to_geodataframe pageC5 "0" =
      .error (.valueError "A LinearRing must have at least 3 coordinate tuples") := by
  rfl

/-- Reading `quirks.omit_bbox_crs_param` raises `AttributeError` for every
`ProtocolQuirks` value: the name is not among the declared fields. -/
theorem getattr_omit_bbox (q : ProtocolQuirks) :
    q.getattrName "omit_bbox_crs_param" = .error (.attributeError "omit_bbox_crs_param") := rfl

/-- Reading `quirks.max_concurrent_cells` likewise raises for every value. -/
theorem getattr_max_concurrent (q : ProtocolQuirks) :
    q.getattrName "max_concurrent_cells" = .error (.attributeError "max_concurrent_cells") := rfl

/-- `_download_collection` dies on the undeclared attribute read while
building the query parameters, before its first HTTP request, for every
quirks value and every argument. -/
theorem download_collection_attr_error (net : Request → Except String PageJson)
    (parseIso : String → Option String) (now : String) (fuel : Nat)
    (q : ProtocolQuirks) (base_url : String) (mfpr : Nat)
    (cid : String) (bbox : Bbox) (limit : Option Nat) (temporal : String) :
    download_collection net parseIso now fuel q base_url mfpr cid bbox limit temporal
      = ([], .error (.attributeError "omit_bbox_crs_param")) := by
  unfold download_collection
  rw [getattr_omit_bbox]

/-- One `get_features` loop iteration leaves the accumulator unchanged: the
grid branch dies evaluating `quirks.max_concurrent_cells`, the direct branch
dies inside `_download_collection`, and the per-collection handler swallows
either error, with no request on record. -/
theorem getFeaturesStep_swallows (net : Request → Except String PageJson)
    (parseIso : String → Option String) (now : String) (fuel : Nat)
    (q : ProtocolQuirks) (base_url : String) (mfpr : Nat)
    (rb : Bbox × String) (gd : Bool × Option ℚ) (limit : Option Nat) (temporal : String)
    (acc : List Request × List (TGdf (String × FeatData))) (cid : String) :
    getFeaturesStep net parseIso now fuel q base_url mfpr rb gd limit temporal acc cid
      = acc := by
  unfold getFeaturesStep
  by_cases hgd : (gd.1 && gd.2.isSome) = true
  · rw [if_pos hgd, getattr_max_concurrent]
    simp
  · rw [if_neg hgd, download_collection_attr_error]
    simp

/-- Folding the swallowing step over any collection list is the identity on
the accumulator. -/
theorem foldl_fixed {β γ : Type} (f : β → γ → β) (h : ∀ b c, f b c = b) :
    ∀ (l : List γ) (b : β), l.foldl f b = b
  | [], _ => rfl
  | c :: l, b => by rw [List.foldl_cons, h]; exact foldl_fixed f h l b

/-- C1: for every `ProtocolQuirks` value and every non-empty collection
list (with a valid bbox), `get_features` issues no feature request and
returns the empty `GeoDataFrame()`: each per-collection download raises
`AttributeError` before the first HTTP items request — the direct path
reads `quirks.omit_bbox_crs_param`, the grid path reads
`quirks.max_concurrent_cells`, neither of which `ProtocolQuirks` declares —
and the per-collection exception handler swallows the error for every
collection. -/
theorem c1_get_features_empty (net : Request → Except String PageJson)
    (reproject : String → ℚ × ℚ → ℚ × ℚ)
    (toCrs : String → TGdf (String × FeatData) → TGdf (String × FeatData))
    (parseIso : String → Option String) (now : String) (fuel : Nat)
    (q : ProtocolQuirks) (base_url : String) (mfpr : Nat)
    (bbox : Bbox) (layers : List String) (crs : String) (limit : Option Nat)
    (temporal : String)
    (hbb : validate_bbox bbox = .ok ())
    (hne : layers ≠ []) :
    (∀ cid cb lim,
      download_collection net parseIso now fuel q base_url mfpr cid cb lim temporal
        = ([], Except.error (PyErr.attributeError "omit_bbox_crs_param"))) ∧
    get_features net reproject toCrs parseIso now fuel q base_url mfpr bbox layers crs
      limit temporal = .ok ([], ⟨{}, []⟩) := by
  refine ⟨fun cid cb lim =>
    download_collection_attr_error net parseIso now fuel q base_url mfpr cid cb lim temporal, ?_⟩
  unfold get_features
  rw [hbb]
  have hle : layers.isEmpty = false := by
    cases layers with
    | nil => exact absurd rfl hne
    | cons a l => rfl
  rw [hle]
  have hstep := fun b c =>
    getFeaturesStep_swallows net parseIso now fuel q base_url mfpr
      (computeRequestBbox reproject q bbox)
      (gridDecision q (computeRequestBbox reproject q bbox).2
        (computeRequestBbox reproject q bbox).1) limit temporal b c
  simp only [foldl_fixed _ hstep]
  rfl

/-- C1 witness: a concrete transport that would answer every request, PDOK
quirks, one collection — yet the call returns the empty frame with no
request issued. -/
theorem c1_witness :
    validate_bbox ⟨0, 0, 1, 1⟩ = .ok () ∧ (["pand"] : List String) ≠ [] ∧
    get_features (fun _ => .ok {}) (fun _ p => p) (fun _ g => g) (fun _ => none)
      "2026-01-01T00:00:00Z" 9 cityjsonFormatEntry.val "https://api.example/v1/" 10000
      ⟨0, 0, 1, 1⟩ ["pand"] "EPSG:4326" none "latest" = .ok ([], ⟨{}, []⟩) :=
  ⟨rfl, by decide,
    (c1_get_features_empty (fun _ => .ok {}) (fun _ p => p) (fun _ g => g) (fun _ => none)
      "2026-01-01T00:00:00Z" 9 cityjsonFormatEntry.val "https://api.example/v1/" 10000
      ⟨0, 0, 1, 1⟩ ["pand"] "EPSG:4326" none "latest" rfl (by decide)).2⟩

/-- C10, amended: only a strategy string with exactly two dashes that
`datetime.fromisoformat` rejects falls back to the `latest` behaviour, and
that fallback does surface the warning — provided the frame is non-empty
and has a recognised identifier column (otherwise the filter returns the
input before reaching any strategy branch). Unrecognised strategies of any
other shape return the input unfiltered with no warning (counterexample). -/
theorem c10_amended {α : Type} (parseIso : String → Option String) (now : String)
    (g : TGdf α) (t : String)
    (hdash : t.toList.count '-' = 2)
    (hparse : parseIso (t.replace "Z" "") = none)
    (hne : g.rows ≠ [])
    (hid : idFieldOf g.cols ≠ none) :
    apply_temporal_filter parseIso now g t
      = ((apply_temporal_filter parseIso now g "latest").1, true) := by
  obtain ⟨idf, hidf⟩ : ∃ idf, idFieldOf g.cols = some idf := by
    cases hio : idFieldOf g.cols with
    | none => exact absurd hio hid
    | some idf => exact ⟨idf, rfl⟩
  have hE : g.rows.isEmpty = false := by
    cases hg : g.rows with
    | nil => exact absurd hg hne
    | cons a l => rfl
  have hta : (t == "all") = false := by
    rcases eq_or_ne t "all" with h | h
    · subst h; simp at hdash
    · simp [h]
  have htac : (t == "active") = false := by
    rcases eq_or_ne t "active" with h | h
    · subst h; simp at hdash
    · simp [h]
  have htl : (t == "latest") = false := by
    rcases eq_or_ne t "latest" with h | h
    · subst h; simp at hdash
    · simp [h]
  have hdashb : (t.toList.count '-' == 2) = true := by
    simp only [beq_iff_eq]
    exact hdash
  have hR : apply_temporal_filter parseIso now g "latest" = (latestFilter idf g, false) := by
    unfold apply_temporal_filter
    rw [hE, hidf]
    rfl
  rw [hR]
  unfold apply_temporal_filter
  rw [hE, hidf]
  simp only [hta, htac, htl, hdashb, Bool.false_or, Bool.or_self, if_false, if_true,
    Bool.false_eq_true, ite_false, ite_true, hparse]

/-- C10 amended, witness: the strategy `"not-a-date"` on the C10 frame. -/
theorem c10_amended_witness :
    ("not-a-date".toList.count '-' = 2 ∧ gdfC10.rows ≠ [] ∧ idFieldOf gdfC10.cols ≠ none) ∧
    apply_temporal_filter (fun _ => none) "2026-01-01T00:00:00Z" gdfC10 "not-a-date"
      = ((apply_temporal_filter (fun _ => none) "2026-01-01T00:00:00Z" gdfC10 "latest").1,
        true) :=
  ⟨⟨by decide, by decide, by decide⟩,
    c10_amended (fun _ => none) "2026-01-01T00:00:00Z" gdfC10 "not-a-date"
      (by decide) rfl (by decide) (by decide)⟩

/-- For a 3-D LOD the per-feature decoder loop cannot raise: the `Polygon`
constructor is wrapped in `try/except` there, and the LOD-0 path is not
taken. -/
theorem cjRowsGo_ok_of_lod_ne (lod : String) (transform : Option TransformObj)
    (h : (lod == "0") = false) :
    ∀ fs : List CJFeature, ∃ rows, cjRowsGo lod transform fs = .ok rows := by
  intro fs
  induction fs with
  | nil => exact ⟨[], rfl⟩
  | cons f rest ih =>
    obtain ⟨rows, hr⟩ := ih
    cases hfb : findBuilding f.cityObjects with
    | none =>
      refine ⟨rows, ?_⟩
      simp only [cjRowsGo, hfb]
      exact hr
    | some pair =>
      obtain ⟨bid, b⟩ := pair
      cases hpg : findPartGeometry f.vertices lod transform f.cityObjects with
      | none =>
        refine ⟨rows, ?_⟩
        simp only [cjRowsGo, hfb, h, Bool.false_eq_true, if_false, hpg]
        exact hr
      | some geo =>
        refine ⟨⟨geo, cjRowAttrs lod bid b⟩ :: rows, ?_⟩
        simp only [cjRowsGo, hfb, h, Bool.false_eq_true, if_false, hpg, hr]

/-- C5, amended: out-of-range boundary indices are silently dropped
per-index and short rings are skipped in the 3-D LOD path — every surface
that survives has at least its 3 required points and `Polygon` failures are
swallowed, so for any LOD other than `"0"` the decoder returns the
remaining features without error. No decode-error count exists, and in the
LOD-0 path a ring resolving to 1-2 points raises a `ValueError` out of the
decoder (counterexample). -/
theorem c5_amended (page : CityPage) (lod : String) (h : lod ≠ "0") :
    (∃ rows, cityjson_to_geodataframe page lod = .ok rows) ∧
    ∀ tf vertices shells poly, poly ∈ lodSurfaces tf vertices shells → 3 ≤ poly.length := by
  constructor
  · have hb : (lod == "0") = false := by simp [h]
    unfold cityjson_to_geodataframe
    by_cases hf : page.features.isEmpty
    · exact ⟨[], by rw [if_pos hf]⟩
    · obtain ⟨rows, hr⟩ :=
        cjRowsGo_ok_of_lod_ne lod (page.metadata.bind (·.transform)) hb page.features
      exact ⟨rows, by rw [if_neg hf]; exact hr⟩
  · intro tf vertices shells poly hmem
    unfold lodSurfaces at hmem
    rw [List.mem_filterMap] at hmem
    obtain ⟨surface, _, hf⟩ := hmem
    cases surface with
    | nil => exact absurd hf (by simp)
    | cons outer rest =>
      simp only at hf
      by_cases hE : (ringCoords3 tf vertices outer).isEmpty
      · rw [if_pos hE] at hf
        exact absurd hf (by simp)
      · rw [if_neg hE] at hf
        have hlen : (ringCoords3 tf vertices outer).length ≠ 0 := by
          intro h0
          exact hE (List.isEmpty_iff_length_eq_zero.mpr h0)
        cases hsp : shapelyPolygon3 (ringCoords3 tf vertices outer) with
        | error e => rw [hsp] at hf; exact absurd hf (by simp)
        | ok p =>
          rw [hsp] at hf
          simp only [Option.some.injEq] at hf
          subst hf
          unfold shapelyPolygon3 at hsp
          rw [if_neg hlen] at hsp
          by_cases hlt : (ringCoords3 tf vertices outer).length < 3
          · rw [if_pos hlt] at hsp
            exact absurd hsp (by simp)
          · rw [if_neg hlt] at hsp
            injection hsp with hsp'
            rw [← hsp']
            omega

/-- C5 amended, witness: the failing C5 page decodes without error at LOD
2.2 (the feature is skipped, the decode succeeds). -/
theorem c5_amended_witness :
    ("2.2" : String) ≠ "0" ∧
    ((∃ rows, cityjson_to_geodataframe pageC5 "2.2" = .ok rows) ∧
      ∀ tf vertices shells poly, poly ∈ lodSurfaces tf vertices shells → 3 ≤ poly.length) :=
  ⟨by decide, c5_amended pageC5 "2.2" (by decide)⟩

/-- Every point of a transformed 3-D ring is `applyTf3` of an in-bounds
vertex. -/
theorem mem_ringCoords3 (sc tl : ℚ × ℚ × ℚ) (vertices : List Vertex) (ring : List Nat)
    (p : ℚ × ℚ × ℚ) (hp : p ∈ ringCoords3 (some (sc, tl)) vertices ring) :
    ∃ i, ∃ hi : i < vertices.length, p = applyTf3 sc tl vertices[i] := by
  unfold ringCoords3 at hp
  rw [List.mem_filterMap] at hp
  obtain ⟨idx, _, hf⟩ := hp
  by_cases hi : idx < vertices.length
  · rw [dif_pos hi] at hf
    simp only [Option.some.injEq] at hf
    exact ⟨idx, hi, hf.symm⟩
  · rw [dif_neg hi] at hf
    exact absurd hf (by simp)

/-- Every point of a transformed 2-D ring is `applyTf2` of an in-bounds
vertex. -/
theorem mem_ringCoords2 (sc tl : ℚ × ℚ × ℚ) (vertices : List Vertex) (ring : List Nat)
    (p : ℚ × ℚ) (hp : p ∈ ringCoords2 (some (sc, tl)) vertices ring) :
    ∃ i, ∃ hi : i < vertices.length, p = applyTf2 sc tl vertices[i] := by
  unfold ringCoords2 at hp
  rw [List.mem_filterMap] at hp
  obtain ⟨idx, _, hf⟩ := hp
  by_cases hi : idx < vertices.length
  · rw [dif_pos hi] at hf
    simp only [Option.some.injEq] at hf
    exact ⟨idx, hi, hf.symm⟩
  · rw [dif_neg hi] at hf
    exact absurd hf (by simp)

/-- Every surviving surface of the 3-D extraction is a resolved ring — the
`Polygon` validation returns its input ring unchanged. -/
theorem mem_lodSurfaces_eq_ring (tf : Option ((ℚ × ℚ × ℚ) × (ℚ × ℚ × ℚ)))
    (vertices : List Vertex) (shells : List (List (List (List Nat))))
    (poly : List (ℚ × ℚ × ℚ)) (h : poly ∈ lodSurfaces tf vertices shells) :
    ∃ outer, poly = ringCoords3 tf vertices outer := by
  unfold lodSurfaces at h
  rw [List.mem_filterMap] at h
  obtain ⟨surface, _, hf⟩ := h
  cases surface with
  | nil => exact absurd hf (by simp)
  | cons outer rest =>
    simp only at hf
    by_cases hE : (ringCoords3 tf vertices outer).isEmpty
    · rw [if_pos hE] at hf
      exact absurd hf (by simp)
    · rw [if_neg hE] at hf
      cases hsp : shapelyPolygon3 (ringCoords3 tf vertices outer) with
      | error e => rw [hsp] at hf; exact absurd hf (by simp)
      | ok p =>
        rw [hsp] at hf
        simp only [Option.some.injEq] at hf
        subst hf
        refine ⟨outer, ?_⟩
        unfold shapelyPolygon3 at hsp
        by_cases h0 : (ringCoords3 tf vertices outer).length = 0
        · rw [if_pos h0] at hsp
          injection hsp with hsp'
          rw [← hsp', List.length_eq_zero.mp h0]
        · rw [if_neg h0] at hsp
          by_cases h3 : (ringCoords3 tf vertices outer).length < 3
          · rw [if_pos h3] at hsp
            exact absurd hsp (by simp)
          · rw [if_neg h3] at hsp
            injection hsp with hsp'
            rw [← hsp']

/-- A multipolygon produced by the `_extract_lod_geometry` loop consists of
some geometry's surviving surfaces. -/
theorem lodGo_surfaces (tf : Option ((ℚ × ℚ × ℚ) × (ℚ × ℚ × ℚ))) (vertices : List Vertex)
    (lod : String) :
    ∀ (gs : List CJGeom) (polys : List (List (ℚ × ℚ × ℚ))),
      lodGo tf vertices lod gs = some (.multiPolygon polys) →
      ∃ shells, polys = lodSurfaces tf vertices shells := by
  intro gs
  induction gs with
  | nil => intro polys h; exact absurd h (by simp [lodGo])
  | cons g rest ih =>
    intro polys h
    obtain ⟨glod, gb⟩ := g
    cases gb with
    | multiSurface s =>
      unfold lodGo at h
      dsimp only at h
      by_cases h1 : (glod.getD "" == lod) = true
      · rw [if_pos h1] at h; exact ih polys h
      · rw [if_neg h1] at h; exact ih polys h
    | other =>
      unfold lodGo at h
      dsimp only at h
      by_cases h1 : (glod.getD "" == lod) = true
      · rw [if_pos h1] at h; exact ih polys h
      · rw [if_neg h1] at h; exact ih polys h
    | solid shells =>
      unfold lodGo at h
      dsimp only at h
      by_cases h1 : (glod.getD "" == lod) = true
      · rw [if_pos h1] at h
        by_cases h2 : (!shells.isEmpty && !vertices.isEmpty) = true
        · rw [if_pos h2] at h
          cases hs : lodSurfaces tf vertices shells with
          | nil => rw [hs] at h; exact ih polys h
          | cons s0 srest =>
            rw [hs] at h
            simp only [Option.some.injEq, PyGeom.multiPolygon.injEq] at h
            exact ⟨shells, by rw [hs, h]⟩
        · rw [if_neg h2] at h; exact ih polys h
      · rw [if_neg h1] at h; exact ih polys h

/-- A polygon produced by the `_extract_lod0_geometry` loop is the first
resolved ring of some geometry's coordinate list. -/
theorem lod0Go_ring (tf : Option ((ℚ × ℚ × ℚ) × (ℚ × ℚ × ℚ))) (vertices : List Vertex) :
    ∀ (gs : List CJGeom) (ring : List (ℚ × ℚ)),
      lod0Go tf vertices gs = .ok (some (.polygon ring)) →
      ∃ outer, ring = ringCoords2 tf vertices outer := by
  intro gs
  induction gs with
  | nil => intro ring h; exact absurd h (by simp [lod0Go])
  | cons g rest ih =>
    intro ring h
    obtain ⟨glod, gb⟩ := g
    cases gb with
    | solid s =>
      unfold lod0Go at h
      dsimp only at h
      by_cases h1 : (glod.getD "None" == "0") = true
      · rw [if_pos h1] at h; exact ih ring h
      · rw [if_neg h1] at h; exact ih ring h
    | other =>
      unfold lod0Go at h
      dsimp only at h
      by_cases h1 : (glod.getD "None" == "0") = true
      · rw [if_pos h1] at h; exact ih ring h
      · rw [if_neg h1] at h; exact ih ring h
    | multiSurface surfaces =>
      unfold lod0Go at h
      dsimp only at h
      by_cases h1 : (glod.getD "None" == "0") = true
      · rw [if_pos h1] at h
        by_cases h2 : (!surfaces.isEmpty && !vertices.isEmpty) = true
        · rw [if_pos h2] at h
          cases hc : lod0Coords tf vertices surfaces with
          | nil => rw [hc] at h; exact ih ring h
          | cons c0 cs =>
            rw [hc] at h
            dsimp only at h
            have hc0 : ring = c0 := by
              unfold shapelyPolygon at h
              by_cases h0 : c0.length = 0
              · rw [if_pos h0] at h
                simp only [Except.map, Except.ok.injEq, Option.some.injEq,
                  PyGeom.polygon.injEq] at h
                rw [← h, List.length_eq_zero.mp h0]
              · rw [if_neg h0] at h
                by_cases h3 : c0.length < 3
                · rw [if_pos h3] at h
                  exact absurd h (by simp [Except.map])
                · rw [if_neg h3] at h
                  simp only [Except.map, Except.ok.injEq, Option.some.injEq,
                    PyGeom.polygon.injEq] at h
                  exact h.symm
            have hmem : c0 ∈ lod0Coords tf vertices surfaces := by
              rw [hc]; exact List.mem_cons_self c0 cs
            unfold lod0Coords at hmem
            rw [List.mem_filterMap] at hmem
            obtain ⟨surface, _, hf⟩ := hmem
            cases surface with
            | nil => exact absurd hf (by simp)
            | cons outer srest =>
              simp only at hf
              by_cases hE : (ringCoords2 tf vertices outer).isEmpty
              · rw [if_pos hE] at hf
                exact absurd hf (by simp)
              · rw [if_neg hE] at hf
                simp only [Option.some.injEq] at hf
                exact ⟨outer, by rw [hc0, ← hf]⟩
        · rw [if_neg h2] at h; exact ih ring h
      · rw [if_neg h1] at h; exact ih ring h

/-- C4: when a page carries a full Transform, every decoded surface
coordinate is `vertex[i] * scale[i] + translate[i]` component-wise for the
boundary-referenced in-bounds vertex — x and y via `applyTf2` for the LOD-0
footprint, and x, y, z via `applyTf3` for 3-D LODs (a vertex without a
third component contributes `z = 0`). -/
theorem c4_transform_componentwise (sc tl : ℚ × ℚ × ℚ) (vertices : List Vertex)
    (co3 : CityObject) (lod : String) (polys : List (List (ℚ × ℚ × ℚ)))
    (h3 : extract_lod_geometry co3 vertices lod (some ⟨some sc, some tl⟩)
      = some (.multiPolygon polys))
    (co0 : CityObject) (ring : List (ℚ × ℚ))
    (h0 : extract_lod0_geometry co0 vertices (some ⟨some sc, some tl⟩)
      = .ok (some (.polygon ring))) :
    (∀ poly ∈ polys, ∀ p ∈ poly,
      ∃ i, ∃ hi : i < vertices.length, p = applyTf3 sc tl vertices[i]) ∧
    (∀ p ∈ ring, ∃ i, ∃ hi : i < vertices.length, p = applyTf2 sc tl vertices[i]) := by
  have htf : tfParts (some ⟨some sc, some tl⟩) = some (sc, tl) := rfl
  unfold extract_lod_geometry at h3
  rw [htf] at h3
  unfold extract_lod0_geometry at h0
  rw [htf] at h0
  constructor
  · intro poly hpoly p hp
    obtain ⟨shells, hsh⟩ := lodGo_surfaces (some (sc, tl)) vertices lod co3.geometry polys h3
    rw [hsh] at hpoly
    obtain ⟨outer, ho⟩ := mem_lodSurfaces_eq_ring (some (sc, tl)) vertices shells poly hpoly
    rw [ho] at hp
    exact mem_ringCoords3 sc tl vertices outer p hp
  · intro p hp
    obtain ⟨outer, ho⟩ := lod0Go_ring (some (sc, tl)) vertices co0.geometry ring h0
    rw [ho] at hp
    exact mem_ringCoords2 sc tl vertices outer p hp

/-- C4 witness: a concrete building decoded at LOD 0 and LOD 2.2 under a
millimetre-compression transform. -/
theorem c4_witness :
    extract_lod_geometry co3W vW "2.2" (some ⟨some scW, some tlW⟩)
        = some (.multiPolygon polysW) ∧
    extract_lod0_geometry co0W vW (some ⟨some scW, some tlW⟩)
        = .ok (some (.polygon ringW)) ∧
    ((∀ poly ∈ polysW, ∀ p ∈ poly,
        ∃ i, ∃ hi : i < vW.length, p = applyTf3 scW tlW vW[i]) ∧
      (∀ p ∈ ringW, ∃ i, ∃ hi : i < vW.length, p = applyTf2 scW tlW vW[i])) :=
  ⟨rfl, rfl, c4_transform_componentwise scW tlW vW co3W "2.2" polysW rfl co0W ringW rfl⟩

/-- C3, counterexample: two pages with identical vertex arrays and
CityObjects but different Transforms (z-scale 1 versus 2) decode at LOD 0
to identical, non-empty real-world coordinates — the transform difference
is real but touches only a component the footprint decode never consults,
so "different Transforms" alone do not imply different coordinates. -/
theorem c3_counterexample :
    pageC3a.features = pageC3b.features ∧
    pageC3a.metadata ≠ pageC3b.metadata ∧
    cityjson_to_geodataframe pageC3a "0" = cityjson_to_geodataframe pageC3b "0" ∧
    ∃ row rows, cityjson_to_geodataframe pageC3a "0" = .ok (row :: rows) := by
  refine ⟨rfl, by decide, rfl, ⟨_, _, rfl⟩⟩

/-- Shifting the x-translate shifts the 2-D transform output. -/
theorem applyTf2_shift (sc tl : ℚ × ℚ × ℚ) (d : ℚ) (v : Vertex) :
    applyTf2 sc (shiftTl d tl) v = shiftPt2 d (applyTf2 sc tl v) := by
  simp [applyTf2, shiftTl, shiftPt2]
  ring

/-- Shifting the x-translate shifts the 3-D transform output (z
untouched). -/
theorem applyTf3_shift (sc tl : ℚ × ℚ × ℚ) (d : ℚ) (v : Vertex) :
    applyTf3 sc (shiftTl d tl) v = shiftPt3 d (applyTf3 sc tl v) := by
  cases hz : v.z <;> simp [applyTf3, shiftTl, shiftPt3, hz] <;> ring_nf

/-- Ring resolution commutes with the x-translate shift (2-D). -/
theorem ringCoords2_shift (sc tl : ℚ × ℚ × ℚ) (d : ℚ) (vertices : List Vertex)
    (ring : List Nat) :
    ringCoords2 (some (sc, shiftTl d tl)) vertices ring
      = (ringCoords2 (some (sc, tl)) vertices ring).map (shiftPt2 d) := by
  unfold ringCoords2
  rw [List.map_filterMap]
  apply List.filterMap_congr
  intro idx _
  by_cases hi : idx < vertices.length
  · rw [dif_pos hi, dif_pos hi]
    simp [applyTf2_shift]
  · rw [dif_neg hi, dif_neg hi]
    rfl

/-- Ring resolution commutes with the x-translate shift (3-D). -/
theorem ringCoords3_shift (sc tl : ℚ × ℚ × ℚ) (d : ℚ) (vertices : List Vertex)
    (ring : List Nat) :
    ringCoords3 (some (sc, shiftTl d tl)) vertices ring
      = (ringCoords3 (some (sc, tl)) vertices ring).map (shiftPt3 d) := by
  unfold ringCoords3
  rw [List.map_filterMap]
  apply List.filterMap_congr
  intro idx _
  by_cases hi : idx < vertices.length
  · rw [dif_pos hi, dif_pos hi]
    simp [applyTf3_shift]
  · rw [dif_neg hi, dif_neg hi]
    rfl

/-- `Polygon` validation commutes with a coordinate shift (2-D): the shift
preserves ring length, hence also the raise/skip decision. -/
theorem shapelyPolygon_shift (d : ℚ) (ring : List (ℚ × ℚ)) :
    shapelyPolygon (ring.map (shiftPt2 d))
      = Except.map (shiftGeom d) (shapelyPolygon ring) := by
  unfold shapelyPolygon
  rw [List.length_map]
  split_ifs <;> simp [Except.map, shiftGeom]

/-- `Polygon` validation commutes with a coordinate shift (3-D). -/
theorem shapelyPolygon3_shift (d : ℚ) (ring : List (ℚ × ℚ × ℚ)) :
    shapelyPolygon3 (ring.map (shiftPt3 d))
      = Except.map (List.map (shiftPt3 d)) (shapelyPolygon3 ring) := by
  unfold shapelyPolygon3
  rw [List.length_map]
  split_ifs <;> simp [Except.map]

/-- The LOD-0 coordinate accumulation commutes with the shift. -/
theorem lod0Coords_shift (sc tl : ℚ × ℚ × ℚ) (d : ℚ) (vertices : List Vertex)
    (surfaces : List (List (List Nat))) :
    lod0Coords (some (sc, shiftTl d tl)) vertices surfaces
      = (lod0Coords (some (sc, tl)) vertices surfaces).map (List.map (shiftPt2 d)) := by
  unfold lod0Coords
  rw [List.map_filterMap]
  apply List.filterMap_congr
  intro surface _
  cases surface with
  | nil => rfl
  | cons outer rest =>
    simp only
    rw [ringCoords2_shift]
    cases hrc : ringCoords2 (some (sc, tl)) vertices outer <;> simp

/-- The 3-D surface accumulation commutes with the shift. -/
theorem lodSurfaces_shift (sc tl : ℚ × ℚ × ℚ) (d : ℚ) (vertices : List Vertex)
    (shells : List (List (List (List Nat)))) :
    lodSurfaces (some (sc, shiftTl d tl)) vertices shells
      = (lodSurfaces (some (sc, tl)) vertices shells).map (List.map (shiftPt3 d)) := by
  unfold lodSurfaces
  rw [List.map_filterMap]
  apply List.filterMap_congr
  intro surface _
  cases surface with
  | nil => rfl
  | cons outer rest =>
    simp only
    rw [ringCoords3_shift]
    cases hrc : ringCoords3 (some (sc, tl)) vertices outer with
    | nil => simp
    | cons p ps =>
      simp only [List.map_cons, List.isEmpty_cons, if_false, Bool.false_eq_true]
      rw [← List.map_cons, shapelyPolygon3_shift]
      cases shapelyPolygon3 (p :: ps) <;> simp [Except.map]

/-- The LOD-0 geometry loop commutes with the shift. -/
theorem lod0Go_shift (sc tl : ℚ × ℚ × ℚ) (d : ℚ) (vertices : List Vertex) :
    ∀ gs : List CJGeom,
      lod0Go (some (sc, shiftTl d tl)) vertices gs
        = Except.map (Option.map (shiftGeom d)) (lod0Go (some (sc, tl)) vertices gs) := by
  intro gs
  induction gs with
  | nil => rfl
  | cons g rest ih =>
    obtain ⟨glod, gb⟩ := g
    cases gb with
    | solid s =>
      unfold lod0Go
      dsimp only
      split_ifs <;> exact ih
    | other =>
      unfold lod0Go
      dsimp only
      split_ifs <;> exact ih
    | multiSurface surfaces =>
      unfold lod0Go
      dsimp only
      by_cases h1 : (glod.getD "None" == "0") = true
      · rw [if_pos h1, if_pos h1]
        by_cases h2 : (!surfaces.isEmpty && !vertices.isEmpty) = true
        · rw [if_pos h2, if_pos h2]
          rw [lod0Coords_shift]
          cases hc : lod0Coords (some (sc, tl)) vertices surfaces with
          | nil => simpa using ih
          | cons c0 cs =>
            simp only [List.map_cons]
            rw [shapelyPolygon_shift]
            cases shapelyPolygon c0 <;> simp [Except.map]
        · rw [if_neg h2, if_neg h2]
          exact ih
      · rw [if_neg h1, if_neg h1]
        exact ih

/-- The 3-D geometry loop commutes with the shift. -/
theorem lodGo_shift (sc tl : ℚ × ℚ × ℚ) (d : ℚ) (vertices : List Vertex) (lod : String) :
    ∀ gs : List CJGeom,
      lodGo (some (sc, shiftTl d tl)) vertices lod gs
        = Option.map (shiftGeom d) (lodGo (some (sc, tl)) vertices lod gs) := by
  intro gs
  induction gs with
  | nil => rfl
  | cons g rest ih =>
    obtain ⟨glod, gb⟩ := g
    cases gb with
    | multiSurface s =>
      unfold lodGo
      dsimp only
      split_ifs <;> exact ih
    | other =>
      unfold lodGo
      dsimp only
      split_ifs <;> exact ih
    | solid shells =>
      unfold lodGo
      dsimp only
      by_cases h1 : (glod.getD "" == lod) = true
      · rw [if_pos h1, if_pos h1]
        by_cases h2 : (!shells.isEmpty && !vertices.isEmpty) = true
        · rw [if_pos h2, if_pos h2]
          rw [lodSurfaces_shift]
          cases hs : lodSurfaces (some (sc, tl)) vertices shells with
          | nil => simpa using ih
          | cons s0 srest => simp [shiftGeom]
        · rw [if_neg h2, if_neg h2]
          exact ih
      · rw [if_neg h1, if_neg h1]
        exact ih

/-- The `BuildingPart` search commutes with the shift. -/
theorem findPartGeometry_shift (sc tl : ℚ × ℚ × ℚ) (d : ℚ) (vertices : List Vertex)
    (lod : String) :
    ∀ objs : List (String × CityObject),
      findPartGeometry vertices lod (some ⟨some sc, some (shiftTl d tl)⟩) objs
        = Option.map (shiftGeom d)
            (findPartGeometry vertices lod (some ⟨some sc, some tl⟩) objs) := by
  intro objs
  induction objs with
  | nil => rfl
  | cons io rest ih =>
    obtain ⟨i, o⟩ := io
    unfold findPartGeometry
    by_cases ho : (o.type == some "BuildingPart") = true
    · rw [if_pos ho, if_pos ho]
      have he : extract_lod_geometry o vertices lod (some ⟨some sc, some (shiftTl d tl)⟩)
          = Option.map (shiftGeom d)
              (extract_lod_geometry o vertices lod (some ⟨some sc, some tl⟩)) := by
        unfold extract_lod_geometry
        exact lodGo_shift sc tl d vertices lod o.geometry
      rw [he]
      cases extract_lod_geometry o vertices lod (some ⟨some sc, some tl⟩) <;> simp [ih]
    · rw [if_neg ho, if_neg ho]
      exact ih

/-- The per-feature decode loop commutes with the shift. -/
theorem cjRowsGo_shift (sc tl : ℚ × ℚ × ℚ) (d : ℚ) (lod : String) :
    ∀ fs : List CJFeature,
      cjRowsGo lod (some ⟨some sc, some (shiftTl d tl)⟩) fs
        = Except.map (List.map (shiftRow d)) (cjRowsGo lod (some ⟨some sc, some tl⟩) fs) := by
  intro fs
  induction fs with
  | nil => rfl
  | cons f rest ih =>
    unfold cjRowsGo
    cases hfb : findBuilding f.cityObjects with
    | none => simpa using ih
    | some pair =>
      obtain ⟨bid, b⟩ := pair
      dsimp only
      have hgeo :
          (if lod == "0" then
              extract_lod0_geometry b f.vertices (some ⟨some sc, some (shiftTl d tl)⟩)
            else .ok (findPartGeometry f.vertices lod (some ⟨some sc, some (shiftTl d tl)⟩)
              f.cityObjects))
          = Except.map (Option.map (shiftGeom d))
            (if lod == "0" then
                extract_lod0_geometry b f.vertices (some ⟨some sc, some tl⟩)
              else .ok (findPartGeometry f.vertices lod (some ⟨some sc, some tl⟩)
                f.cityObjects)) := by
        by_cases hl : (lod == "0") = true
        · rw [if_pos hl, if_pos hl]
          unfold extract_lod0_geometry
          exact lod0Go_shift sc tl d f.vertices b.geometry
        · rw [if_neg hl, if_neg hl]
          rw [findPartGeometry_shift]
          rfl
      rw [hgeo]
      cases hg : (if lod == "0" then
          extract_lod0_geometry b f.vertices (some ⟨some sc, some tl⟩)
        else .ok (findPartGeometry f.vertices lod (some ⟨some sc, some tl⟩)
          f.cityObjects)) with
      | error e => rfl
      | ok og =>
        cases og with
        | none => simpa using ih
        | some geo =>
          rw [ih]
          cases cjRowsGo lod (some ⟨some sc, some tl⟩) rest <;>
            simp [Except.map, shiftRow]

/-- Decoding the same features under an x-shifted translate shifts every
decoded row. -/
theorem cityjson_decode_shift (sc tl : ℚ × ℚ × ℚ) (d : ℚ) (lod : String)
    (feats : List CJFeature) :
    cityjson_to_geodataframe (mkPage sc (shiftTl d tl) feats) lod
      = Except.map (List.map (shiftRow d))
          (cityjson_to_geodataframe (mkPage sc tl feats) lod) := by
  unfold cityjson_to_geodataframe mkPage
  dsimp only
  by_cases hf : feats.isEmpty
  · rw [if_pos hf, if_pos hf]
    rfl
  · rw [if_neg hf, if_neg hf]
    exact cjRowsGo_shift sc tl d lod feats

/-- The first decoded x-coordinate shifts along. -/
theorem firstX_shift (d : ℚ) (rows : List CJRow) :
    firstX (rows.map (shiftRow d)) = (firstX rows).map (· + d) := by
  cases rows with
  | nil => rfl
  | cons r rest =>
    cases hg : r.geometry with
    | polygon ring =>
      cases ring <;> simp [firstX, shiftRow, shiftGeom, shiftPt2, hg]
    | multiPolygon polys =>
      cases polys with
      | nil => simp [firstX, shiftRow, shiftGeom, hg]
      | cons poly prest =>
        cases poly <;> simp [firstX, shiftRow, shiftGeom, shiftPt3, hg]

/-- C3, amended: decoding reads only the page's own embedded Transform, and
two pages identical except for their Transform produce different
real-world coordinates whenever the difference reaches a decoded
component — here, an x-translate differing by `d ≠ 0`: every decoded
coordinate shifts by `d`, so any non-empty decode differs. (A Transform
difference confined to components the requested LOD never reads — the
counterexample's z-scale at LOD 0 — leaves the output unchanged.) -/
theorem c3_amended (feats : List CJFeature) (sc tl : ℚ × ℚ × ℚ) (d : ℚ) (lod : String)
    (rows : List CJRow) (x : ℚ)
    (hd : d ≠ 0)
    (h1 : cityjson_to_geodataframe (mkPage sc tl feats) lod = .ok rows)
    (hx : firstX rows = some x) :
    cityjson_to_geodataframe (mkPage sc (shiftTl d tl) feats) lod
        = .ok (rows.map (shiftRow d)) ∧
    rows.map (shiftRow d) ≠ rows := by
  have h2 := cityjson_decode_shift sc tl d lod feats
  rw [h1] at h2
  refine ⟨h2, ?_⟩
  intro heq
  have h3 := congrArg firstX heq
  rw [firstX_shift, hx] at h3
  simp only [Option.map_some'] at h3
  have : x + d = x := by injection h3
  exact hd (by linarith)

/-- C3 amended, witness: the C3 feature decoded under translate `(0,0,0)`
and under the x-shifted translate `(7,0,0)` gives shifted, unequal rows. -/
theorem c3_amended_witness :
    ((7 : ℚ) ≠ 0 ∧
      cityjson_to_geodataframe (mkPage (1, 1, 1) (0, 0, 0) [cjFeatC3]) "0" = .ok rowsC3 ∧
      firstX rowsC3 = some ((0 : ℚ) * 1 + 0)) ∧
    (cityjson_to_geodataframe (mkPage (1, 1, 1) (shiftTl 7 (0, 0, 0)) [cjFeatC3]) "0"
        = .ok (rowsC3.map (shiftRow 7)) ∧
      rowsC3.map (shiftRow 7) ≠ rowsC3) :=
  ⟨⟨by norm_num, rfl, rfl⟩,
    c3_amended [cjFeatC3] (1, 1, 1) (0, 0, 0) 7 "0" rowsC3 ((0 : ℚ) * 1 + 0)
      (by norm_num) rfl rfl⟩

/-- C7, counterexample: the identifier `"a"` appears in two different
cells' results, but the merged output contains two copies, not one — the
seen-set masks only rows from earlier cells, so a within-cell duplicate
(same identifier twice in one cell's frame) survives whole. -/
theorem c7_counterexample :
    1 ≤ countId "a" cellA7.rows ∧ 1 ≤ countId "a" cellB7.rows ∧
    countId "a" (mergedRows [Except.ok cellA7, Except.ok cellB7]) = 2 := by
  refine ⟨by decide, by decide, by decide⟩

/-- Seen-set membership through `List.contains` on optional identifiers. -/
theorem seenContains_iff (l : List (Option String)) (a : Option String) :
    l.contains a = true ↔ a ∈ l := by
  induction l with
  | nil => simp
  | cons b t ih =>
    simp only [List.contains_cons, Bool.or_eq_true, beq_iff_eq, List.mem_cons, ih]

/-- Negative form of the seen-set membership test. -/
theorem seenContains_false_iff (l : List (Option String)) (a : Option String) :
    l.contains a = false ↔ a ∉ l := by
  rw [Bool.eq_false_iff]
  exact not_congr (seenContains_iff l a)

/-- Appending a frame to the accumulator appends its rows. -/
theorem stateRows_append (seen' : List (Option String)) (gdfs : List (TGdf α)) (g1 : TGdf α)
    (t : Nat) :
    stateRows (⟨seen', gdfs ++ [g1], t⟩ : GridMergeState α)
      = stateRows ⟨seen', gdfs, t⟩ ++ g1.rows := by
  simp [stateRows]

/-- `stateRows` ignores the seen-set and total. -/
theorem stateRows_eq (seen' seen'' : List (Option String)) (gdfs : List (TGdf α))
    (t t' : Nat) :
    stateRows (⟨seen', gdfs, t⟩ : GridMergeState α) = stateRows ⟨seen'', gdfs, t'⟩ := rfl

/-- Merging one cell only appends rows. -/
theorem gridMergeCell_rows_mono {α : Type} (st : GridMergeState α)
    (res : Except String (TGdf α)) :
    ∀ r ∈ stateRows st, r ∈ stateRows (gridMergeCell st res) := by
  intro r hr
  cases res with
  | error m => exact hr
  | ok g =>
    by_cases hrows : g.rows.isEmpty = true
    · simpa [gridMergeCell, hrows] using hr
    · simp only [gridMergeCell, hrows, if_false, Bool.false_eq_true]
      split_ifs <;>
        first
          | exact hr
          | (rw [stateRows_append]; exact List.mem_append_left _ hr)

/-- Merging a sequence of cells only appends rows. -/
theorem gridMergeRun_rows_mono {α : Type} :
    ∀ (results : List (Except String (TGdf α))) (st : GridMergeState α),
      ∀ r ∈ stateRows st, r ∈ stateRows (gridMergeRun st results)
  | [], _, _, hr => hr
  | res :: rest, st, r, hr =>
    gridMergeRun_rows_mono rest (gridMergeCell st res) r (gridMergeCell_rows_mono st res r hr)

/-- In a duplicate-free key list each key is counted at most once. -/
theorem countP_beq_le_one_of_nodup (l : List (Option String)) (hl : l.Nodup)
    (a : Option String) : l.countP (fun x => x == a) ≤ 1 := by
  induction l with
  | nil => simp
  | cons b t ih =>
    rw [List.countP_cons]
    rcases List.nodup_cons.mp hl with ⟨hb, ht⟩
    by_cases hba : b = a
    · subst hba
      have hz : t.countP (fun x => x == b) = 0 := by
        rw [List.countP_eq_zero]
        intro x hx
        simp only [beq_iff_eq]
        intro hxa
        subst hxa
        exact hb hx
      simp [hz]
    · have hbb : ((b == a) : Bool) = false := by simp [hba]
      rw [hbb]
      simpa using ih ht

/-- Behaviour of one cell merge with respect to a fixed identifier `i`:
contribution to the output count, and evolution of the seen-set. -/
theorem gridMergeCell_spec {α : Type} (i : String) (st : GridMergeState α)
    (res : Except String (TGdf α))
    (hwf : ∀ g : TGdf α, res = Except.ok g → g.cols.hasIdent = false →
      ∀ r ∈ g.rows, r.identificatie = none)
    (hnd : ∀ g : TGdf α, res = Except.ok g → g.cols.hasIdent = true →
      (g.rows.map (fun r => r.identificatie)).Nodup) :
    ((some i) ∈ st.seen →
      countId i (stateRows (gridMergeCell st res)) = countId i (stateRows st))
    ∧ ((some i) ∉ st.seen → appearsInCell i res →
      countId i (stateRows (gridMergeCell st res)) = countId i (stateRows st) + 1)
    ∧ ((some i) ∉ st.seen → ¬ appearsInCell i res →
      countId i (stateRows (gridMergeCell st res)) = countId i (stateRows st))
    ∧ (∀ x, x ∈ st.seen → x ∈ (gridMergeCell st res).seen)
    ∧ ((some i) ∉ st.seen → appearsInCell i res → (some i) ∈ (gridMergeCell st res).seen)
    ∧ ((some i) ∉ st.seen → ¬ appearsInCell i res → (some i) ∉ (gridMergeCell st res).seen) := by
  cases res with
  | error m =>
    have hap : ¬ appearsInCell i (Except.error (α := TGdf α) m) := by
      rintro ⟨g, hg, -⟩
      exact absurd hg (by simp)
    exact ⟨fun _ => rfl, fun _ h => absurd h hap, fun _ _ => rfl, fun x h => h,
      fun _ h => absurd h hap, fun h _ => h⟩
  | ok g =>
    by_cases hrows : g.rows.isEmpty = true
    · have hcell : gridMergeCell st (Except.ok g) = st := by
        simp [gridMergeCell, hrows]
      have hap : ¬ appearsInCell i (Except.ok g) := by
        rintro ⟨g', hg', -, r, hr, -⟩
        have hgg : g = g' := by injection hg'
        subst hgg
        rw [List.isEmpty_iff.mp hrows] at hr
        exact absurd hr (List.not_mem_nil r)
      rw [hcell]
      exact ⟨fun _ => rfl, fun _ h => absurd h hap, fun _ _ => rfl, fun x h => h,
        fun _ h => absurd h hap, fun h _ => h⟩
    · by_cases hid : g.cols.hasIdent = true
      · -- identifier-bearing frame: dedup against the seen-set
        have hcell : gridMergeCell st (Except.ok g) =
            (if !(g.rows.filter
                  (fun r => !(st.seen.contains r.identificatie))).isEmpty = true then
              (⟨st.seen ++ (g.rows.filter
                    (fun r => !(st.seen.contains r.identificatie))).map
                    (fun r => r.identificatie),
                st.gdfs ++ [⟨g.cols, g.rows.filter
                    (fun r => !(st.seen.contains r.identificatie))⟩],
                st.total + (g.rows.filter
                    (fun r => !(st.seen.contains r.identificatie))).length⟩ : GridMergeState α)
            else
              ⟨st.seen ++ (g.rows.filter
                    (fun r => !(st.seen.contains r.identificatie))).map
                    (fun r => r.identificatie),
                st.gdfs, st.total⟩) := by
          simp [gridMergeCell, hrows, hid]
        have hmemf : ∀ r : TRow α,
            r ∈ g.rows.filter (fun r => !(st.seen.contains r.identificatie)) ↔
              r ∈ g.rows ∧ r.identificatie ∉ st.seen := by
          intro r
          simp only [List.mem_filter, Bool.not_eq_true', seenContains_false_iff]
        have hcount : countId i (stateRows (gridMergeCell st (Except.ok g)))
            = countId i (stateRows st)
              + countId i (g.rows.filter (fun r => !(st.seen.contains r.identificatie))) := by
          rw [hcell]
          split_ifs with hne
          · rw [stateRows_append]
            simp [countId, List.countP_append, stateRows]
          · have hfe : (g.rows.filter (fun r => !(st.seen.contains r.identificatie))) = [] := by
              refine List.isEmpty_iff.mp ?_
              simpa using hne
            rw [hfe]
            simp only [countId, List.countP_nil, Nat.add_zero]
            rfl
        have hseen : (gridMergeCell st (Except.ok g)).seen
            = st.seen ++ (g.rows.filter
                (fun r => !(st.seen.contains r.identificatie))).map
                (fun r => r.identificatie) := by
          rw [hcell]
          split_ifs <;> rfl
        refine ⟨?_, ?_, ?_, ?_, ?_, ?_⟩
        · -- already seen: the filter masks every i-row
          intro hin
          rw [hcount]
          have : countId i (g.rows.filter (fun r => !(st.seen.contains r.identificatie))) = 0 := by
            rw [countId, List.countP_eq_zero]
            intro r hr
            rw [hmemf] at hr
            simp only [beq_iff_eq]
            intro hri
            rw [hri] at hr
            exact hr.2 hin
          omega
        · -- unseen and present: exactly one copy survives
          intro hnin hap
          rw [hcount]
          have hfc : countId i (g.rows.filter (fun r => !(st.seen.contains r.identificatie)))
              = countId i g.rows := by
            rw [countId, countId, List.countP_filter]
            refine Nat.le_antisymm ?_ ?_
            · exact List.countP_mono_left (fun r _ h => by
                rw [Bool.and_eq_true] at h
                exact h.1)
            · refine List.countP_mono_left (fun r hr h => ?_)
              rw [Bool.and_eq_true]
              refine ⟨h, ?_⟩
              simp only [beq_iff_eq] at h
              rw [Bool.not_eq_true', seenContains_false_iff, h]
              exact hnin
          have hone : countId i g.rows = 1 := by
            obtain ⟨g', hg', -, r, hr, hri⟩ := hap
            have hgg : g = g' := by injection hg'
            subst hgg
            have hpos : 0 < countId i g.rows := by
              rw [countId, List.countP_pos_iff]
              exact ⟨r, hr, by simp [hri]⟩
            have hle : countId i g.rows ≤ 1 := by
              have hnd' := hnd g rfl hid
              rw [countId]
              have hmapc : g.rows.countP (fun r => r.identificatie == some i)
                  = (g.rows.map (fun r => r.identificatie)).countP (fun x => x == some i) := by
                rw [List.countP_map]
                rfl
              rw [hmapc]
              exact countP_beq_le_one_of_nodup _ hnd' (some i)
            omega
          rw [hfc, hone]
        · -- unseen and absent: nothing to add
          intro hnin hap
          rw [hcount]
          have : countId i (g.rows.filter (fun r => !(st.seen.contains r.identificatie))) = 0 := by
            rw [countId, List.countP_eq_zero]
            intro r hr
            rw [hmemf] at hr
            simp only [beq_iff_eq]
            intro hri
            exact hap ⟨g, rfl, hid, r, hr.1, hri⟩
          omega
        · intro x hx
          rw [hseen]
          exact List.mem_append_left _ hx
        · intro hnin hap
          rw [hseen]
          obtain ⟨g', hg', -, r, hr, hri⟩ := hap
          have hgg : g = g' := by injection hg'
          subst hgg
          refine List.mem_append_right _ ?_
          rw [List.mem_map]
          refine ⟨r, ?_, hri⟩
          rw [hmemf]
          exact ⟨hr, by rw [hri]; exact hnin⟩
        · intro hnin hap hmem
          rw [hseen] at hmem
          rcases List.mem_append.mp hmem with h | h
          · exact hnin h
          · rw [List.mem_map] at h
            obtain ⟨r, hr, hri⟩ := h
            rw [hmemf] at hr
            exact hap ⟨g, rfl, hid, r, hr.1, hri⟩
      · -- no identifier column: all rows kept as-is, seen-set untouched
        have hid' : g.cols.hasIdent = false := by
          rw [← Bool.not_eq_true]
          exact hid
        have hcell : gridMergeCell st (Except.ok g)
            = ⟨st.seen, st.gdfs ++ [g], st.total + g.rows.length⟩ := by
          simp [gridMergeCell, hrows, hid']
        have hap : ¬ appearsInCell i (Except.ok g) := by
          rintro ⟨g', hg', hidT, -⟩
          have hgg : g = g' := by injection hg'
          subst hgg
          rw [hid'] at hidT
          exact Bool.false_ne_true hidT
        have hz : countId i g.rows = 0 := by
          rw [countId, List.countP_eq_zero]
          intro r hr
          rw [hwf g rfl hid' r hr]
          simp
        have hcount : countId i (stateRows (gridMergeCell st (Except.ok g)))
            = countId i (stateRows st) := by
          rw [hcell, stateRows_append]
          simp only [countId, List.countP_append]
          rw [countId] at hz
          simp [stateRows, hz]
        rw [hcell] at *
        exact ⟨fun _ => hcount, fun _ h => absurd h hap, fun _ _ => hcount,
          fun x h => h, fun _ h => absurd h hap, fun h _ => h⟩

/-- Splitting the appearance predicate across the head cell. -/
theorem appearsId_cons {α : Type} (i : String) (res : Except String (TGdf α))
    (rest : List (Except String (TGdf α))) :
    appearsId i (res :: rest) ↔ appearsInCell i res ∨ appearsId i rest := by
  unfold appearsId appearsInCell
  constructor
  · rintro ⟨g, hmem, hid, hr⟩
    rcases List.mem_cons.mp hmem with h | h
    · exact Or.inl ⟨g, h.symm, hid, hr⟩
    · exact Or.inr ⟨g, h, hid, hr⟩
  · rintro (⟨g, h, hid, hr⟩ | ⟨g, h, hid, hr⟩)
    · exact ⟨g, List.mem_cons.mpr (Or.inl h.symm), hid, hr⟩
    · exact ⟨g, List.mem_cons.mpr (Or.inr h), hid, hr⟩

/-- Behaviour of the whole merge with respect to a fixed identifier. -/
theorem gridMergeRun_spec {α : Type} (i : String) :
    ∀ (results : List (Except String (TGdf α))) (st : GridMergeState α),
      wfCells results → cellsNodup results →
      ((some i) ∈ st.seen →
        countId i (stateRows (gridMergeRun st results)) = countId i (stateRows st))
      ∧ ((some i) ∉ st.seen → appearsId i results →
        countId i (stateRows (gridMergeRun st results)) = countId i (stateRows st) + 1)
      ∧ ((some i) ∉ st.seen → ¬ appearsId i results →
        countId i (stateRows (gridMergeRun st results)) = countId i (stateRows st))
      ∧ (∀ x, x ∈ st.seen → x ∈ (gridMergeRun st results).seen) := by
  intro results
  induction results with
  | nil =>
    intro st _ _
    refine ⟨fun _ => rfl, fun _ hap => ?_, fun _ _ => rfl, fun x h => h⟩
    obtain ⟨g, hmem, -⟩ := hap
    exact absurd hmem (List.not_mem_nil _)
  | cons res rest ih =>
    intro st hwf hnd
    have hwf0 : ∀ g : TGdf α, res = Except.ok g → g.cols.hasIdent = false →
        ∀ r ∈ g.rows, r.identificatie = none := by
      intro g hg
      exact hwf g (by rw [← hg]; exact List.mem_cons_self res rest)
    have hnd0 : ∀ g : TGdf α, res = Except.ok g → g.cols.hasIdent = true →
        (g.rows.map (fun r => r.identificatie)).Nodup := by
      intro g hg
      exact hnd g (by rw [← hg]; exact List.mem_cons_self res rest)
    have hwfr : wfCells rest := fun g hg => hwf g (List.mem_cons_of_mem res hg)
    have hndr : cellsNodup rest := fun g hg => hnd g (List.mem_cons_of_mem res hg)
    obtain ⟨c1, c2, c3, c4, c5, c6⟩ := gridMergeCell_spec i st res hwf0 hnd0
    obtain ⟨r1, r2, r3, r4⟩ := ih (gridMergeCell st res) hwfr hndr
    have hrun : gridMergeRun st (res :: rest)
        = gridMergeRun (gridMergeCell st res) rest := rfl
    rw [hrun]
    refine ⟨?_, ?_, ?_, ?_⟩
    · intro hin
      rw [r1 (c4 (some i) hin), c1 hin]
    · intro hnin hap
      by_cases hac : appearsInCell i res
      · rw [r1 (c5 hnin hac), c2 hnin hac]
      · rcases (appearsId_cons i res rest).mp hap with h | h
        · exact absurd h hac
        · rw [r2 (c6 hnin hac) h, c3 hnin hac]
    · intro hnin hap
      rw [appearsId_cons] at hap
      push_neg at hap
      rw [r3 (c6 hnin hap.1) hap.2, c3 hnin hap.1]
    · intro x hx
      exact r4 x (c4 x hx)

/-- Rows of frames without the identifier column are all kept. -/
theorem gridMergeRun_keeps_noid {α : Type} :
    ∀ (results : List (Except String (TGdf α))) (st : GridMergeState α) (g : TGdf α),
      Except.ok g ∈ results → g.cols.hasIdent = false →
      ∀ r ∈ g.rows, r ∈ stateRows (gridMergeRun st results) := by
  intro results
  induction results with
  | nil =>
    intro st g hmem
    exact absurd hmem (List.not_mem_nil _)
  | cons res rest ih =>
    intro st g hmem hid r hr
    rcases List.mem_cons.mp hmem with h | h
    · have hrows : g.rows.isEmpty = false := by
        cases hrv : g.rows with
        | nil => rw [hrv] at hr; exact absurd hr (List.not_mem_nil r)
        | cons a l => rfl
      have hcell : gridMergeCell st res
          = ⟨st.seen, st.gdfs ++ [g], st.total + g.rows.length⟩ := by
        rw [← h]
        simp [gridMergeCell, hrows, hid]
      have hmem1 : r ∈ stateRows (gridMergeCell st res) := by
        rw [hcell, stateRows_append]
        exact List.mem_append_right _ hr
      exact gridMergeRun_rows_mono rest (gridMergeCell st res) r hmem1
    · exact ih (gridMergeCell st res) g h hid r hr

/-- The first-seen occurrence of an identifier, across cells in processing
order, survives the merge. -/
theorem gridMergeRun_keeps_first {α : Type} (i : String) :
    ∀ (results : List (Except String (TGdf α))) (st : GridMergeState α),
      wfCells results → cellsNodup results → (some i) ∉ st.seen →
      ∀ r, (okRows results).find? (fun r' => r'.identificatie == some i) = some r →
        r ∈ stateRows (gridMergeRun st results) := by
  intro results
  induction results with
  | nil =>
    intro st _ _ _ r hf
    exact absurd hf (by simp [okRows])
  | cons res rest ih =>
    intro st hwf hnd hnin r hf
    have hwfr : wfCells rest := fun g hg => hwf g (List.mem_cons_of_mem res hg)
    have hndr : cellsNodup rest := fun g hg => hnd g (List.mem_cons_of_mem res hg)
    have hok : okRows (res :: rest) = cellRows res ++ okRows rest := by
      cases res <;> simp [okRows, cellRows]
    rw [hok, List.find?_append] at hf
    cases hf1 : (cellRows res).find? (fun r' => r'.identificatie == some i) with
    | some r0 =>
      rw [hf1] at hf
      have hrr : r0 = r := by
        rw [Option.or_some] at hf
        injection hf
      subst hrr
      cases res with
      | error m => exact absurd hf1 (by simp [cellRows])
      | ok g =>
        rw [show cellRows (Except.ok g) = g.rows from rfl] at hf1
        have hr0 : r0 ∈ g.rows := List.mem_of_find?_eq_some hf1
        have hp := List.find?_some hf1
        simp only [beq_iff_eq] at hp
        by_cases hid : g.cols.hasIdent = true
        · have hrows : g.rows.isEmpty = false := by
            cases hrv : g.rows with
            | nil => rw [hrv] at hr0; exact absurd hr0 (List.not_mem_nil r0)
            | cons a l => rfl
          have hkept : r0 ∈ g.rows.filter (fun r => !(st.seen.contains r.identificatie)) := by
            rw [List.mem_filter]
            refine ⟨hr0, ?_⟩
            rw [Bool.not_eq_true', seenContains_false_iff, hp]
            exact hnin
          have hfne : (g.rows.filter (fun r => !(st.seen.contains r.identificatie))).isEmpty
              = false := by
            cases hfv : g.rows.filter (fun r => !(st.seen.contains r.identificatie)) with
            | nil => rw [hfv] at hkept; exact absurd hkept (List.not_mem_nil r0)
            | cons a l => rfl
          have hmem1 : r0 ∈ stateRows (gridMergeCell st (Except.ok g)) := by
            simp only [gridMergeCell, hrows, hid, if_false, if_true, Bool.false_eq_true,
              hfne, Bool.not_false]
            rw [stateRows_append]
            exact List.mem_append_right _ hkept
          exact gridMergeRun_rows_mono rest (gridMergeCell st (Except.ok g)) r0 hmem1
        · have hid' : g.cols.hasIdent = false := by
            rw [← Bool.not_eq_true]; exact hid
          have := hwf g (List.mem_cons_self _ _) hid' r0 hr0
          rw [this] at hp
          exact absurd hp (by simp)
    | none =>
      rw [hf1, Option.none_or] at hf
      have hnap : ¬ appearsInCell i res := by
        rintro ⟨g, hg, -, r', hr', hri⟩
        subst hg
        have hnr' := List.find?_eq_none.mp hf1 r'
          (by rw [show cellRows (Except.ok g) = g.rows from rfl]; exact hr')
        rw [hri] at hnr'
        exact hnr' (by simp)
      have hwf0 : ∀ g : TGdf α, res = Except.ok g → g.cols.hasIdent = false →
          ∀ r' ∈ g.rows, r'.identificatie = none := by
        intro g hg
        exact hwf g (by rw [← hg]; exact List.mem_cons_self res rest)
      have hnd0 : ∀ g : TGdf α, res = Except.ok g → g.cols.hasIdent = true →
          (g.rows.map (fun r => r.identificatie)).Nodup := by
        intro g hg
        exact hnd g (by rw [← hg]; exact List.mem_cons_self res rest)
      obtain ⟨-, -, -, -, -, c6⟩ := gridMergeCell_spec i st res hwf0 hnd0
      exact ih (gridMergeCell st res) hwfr hndr (c6 hnin hnap) r hf

/-- C7, amended: in the grid merge (before any total-feature-cap
truncation), provided each single cell's frame lists each identifier at
most once, an identifier appearing in any cell's result — in particular in
more than one — occurs exactly once in the merged output, and the kept copy
is the first-seen occurrence in cell processing order; rows of frames
without the identifier column are all kept. The per-cell uniqueness proviso
is forced by the counterexample: the seen-set masks only earlier cells, so
within-cell duplicates survive whole. -/
theorem c7_amended {α : Type} (results : List (Except String (TGdf α))) (i : String)
    (hwf : wfCells results) (hnd : cellsNodup results) (happ : appearsId i results) :
    countId i (mergedRows results) = 1
    ∧ (∀ g : TGdf α, Except.ok g ∈ results → g.cols.hasIdent = false →
        ∀ r ∈ g.rows, r ∈ mergedRows results)
    ∧ (∀ r, (okRows results).find? (fun r' => r'.identificatie == some i) = some r →
        r ∈ mergedRows results) := by
  have hmr : mergedRows results = stateRows (gridMergeRun {} results) := rfl
  refine ⟨?_, ?_, ?_⟩
  · obtain ⟨-, r2, -, -⟩ := gridMergeRun_spec i results {} hwf hnd
    rw [hmr, r2 (by simp [GridMergeState.seen]) happ]
    rfl
  · intro g hg hid r hr
    rw [hmr]
    exact gridMergeRun_keeps_noid results {} g hg hid r hr
  · intro r hf
    rw [hmr]
    exact gridMergeRun_keeps_first i results {} hwf hnd (by simp [GridMergeState.seen]) r hf

/-- C7 amended, witness: two cells with per-cell-unique identifiers where
`"b"` straddles both cells — the merged output holds exactly one `"b"`. -/
theorem c7_amended_witness :
    (wfCells wRes ∧ cellsNodup wRes ∧ appearsId "b" wRes) ∧
    countId "b" (mergedRows wRes) = 1 := by
  have hwf : wfCells wRes := by
    intro g hg hid
    rcases List.mem_cons.mp hg with h | h
    · have hgg : g = wCellA := by injection h
      subst hgg
      exact absurd hid (by decide)
    · rcases List.mem_cons.mp h with h2 | h2
      · have hgg : g = wCellB := by injection h2
        subst hgg
        exact absurd hid (by decide)
      · exact absurd h2 (List.not_mem_nil _)
  have hnd : cellsNodup wRes := by
    intro g hg _
    rcases List.mem_cons.mp hg with h | h
    · have hgg : g = wCellA := by injection h
      subst hgg
      decide
    · rcases List.mem_cons.mp h with h2 | h2
      · have hgg : g = wCellB := by injection h2
        subst hgg
        decide
      · exact absurd h2 (List.not_mem_nil _)
  have hap : appearsId "b" wRes :=
    ⟨wCellA, List.mem_cons_self _ _, rfl, gRow "b" 0, by decide, rfl⟩
  exact ⟨⟨hwf, hnd, hap⟩, (c7_amended wRes "b" hwf hnd hap).1⟩

/-- C9, counterexample: two rows with the same identifier and the same
`tijdstip_registratie` but different bodies. Under the `"latest"` strategy
the sort leaves tied rows in input order and `drop_duplicates(keep="first")`
keeps whichever came first, so the two input orderings of the same row set
yield different outputs: the result is **not** independent of input
ordering. -/
theorem c9_counterexample :
    g9a.rows.Perm g9b.rows ∧ rA9 ≠ rB9 ∧
    (apply_temporal_filter (fun _ => none) "2026-01-01T00:00:00Z" g9a "latest").1.rows
      = [rA9] ∧
    (apply_temporal_filter (fun _ => none) "2026-01-01T00:00:00Z" g9b "latest").1.rows
      = [rB9] := by
  refine ⟨List.Perm.swap rB9 rA9 [], by decide, ?_, ?_⟩
  · simp [apply_temporal_filter, latestFilter, idFieldOf, pandasSortDesc,
      List.insertionSort, List.orderedInsert, optDescLe, drop_duplicates_first,
      dropDupGo, TRow.idKey, g9a, rA9, rB9]
  · simp [apply_temporal_filter, latestFilter, idFieldOf, pandasSortDesc,
      List.insertionSort, List.orderedInsert, optDescLe, drop_duplicates_first,
      dropDupGo, TRow.idKey, g9b, rA9, rB9]

/-- The descending NaN-last comparison is total. -/
theorem optDescLe_total {κ : Type} [LinearOrder κ] (x y : Option κ) :
    optDescLe x y = true ∨ optDescLe y x = true := by
  cases x with
  | none =>
    cases y with
    | none => exact Or.inl rfl
    | some v => exact Or.inr rfl
  | some u =>
    cases y with
    | none => exact Or.inl rfl
    | some v =>
      simp only [optDescLe, decide_eq_true_eq]
      exact le_total v u

/-- The descending NaN-last comparison is transitive. -/
theorem optDescLe_trans {κ : Type} [LinearOrder κ] {x y z : Option κ}
    (h1 : optDescLe x y = true) (h2 : optDescLe y z = true) :
    optDescLe x z = true := by
  cases x with
  | none =>
    cases y with
    | none => exact h2
    | some v => exact absurd h1 (by simp [optDescLe])
  | some u =>
    cases z with
    | none => rfl
    | some w =>
      cases y with
      | none => exact absurd h2 (by simp [optDescLe])
      | some v =>
        simp only [optDescLe, decide_eq_true_eq] at h1 h2 ⊢
        exact le_trans h2 h1

/-- The descending NaN-last comparison is antisymmetric. -/
theorem optDescLe_antisymm {κ : Type} [LinearOrder κ] {x y : Option κ}
    (h1 : optDescLe x y = true) (h2 : optDescLe y x = true) : x = y := by
  cases x with
  | none =>
    cases y with
    | none => rfl
    | some v => exact absurd h1 (by simp [optDescLe])
  | some u =>
    cases y with
    | none => exact absurd h2 (by simp [optDescLe])
    | some v =>
      simp only [optDescLe, decide_eq_true_eq] at h1 h2
      exact congrArg some (le_antisymm h2 h1)

/-- Membership in the first-seen duplicate scan over a descending-sorted
list: a row survives iff its key is fresh and every other row of its
identifier group sorts strictly after it (assuming rows of one identifier
group are separated by their sort keys). -/
theorem dropDupGo_mem_char {α : Type} (kid kk : TRow α → Option String) :
    ∀ (l : List (TRow α)) (seen : List (Option String)),
      List.Pairwise (fun a b => optDescLe (kk a) (kk b) = true) l →
      (∀ r ∈ l, ∀ r' ∈ l, kid r = kid r' → kk r = kk r' → r = r') →
      ∀ x, (x ∈ dropDupGo kid seen l ↔
        x ∈ l ∧ kid x ∉ seen ∧
        ∀ r' ∈ l, kid r' = kid x → r' = x ∨ strictlyOlder (kk r') (kk x)) := by
  intro l
  induction l with
  | nil =>
    intro seen _ _ x
    simp [dropDupGo]
  | cons r rest ih =>
    intro seen hs hd x
    obtain ⟨hsr, hsrest⟩ := List.pairwise_cons.mp hs
    have hdrest : ∀ a ∈ rest, ∀ b ∈ rest, kid a = kid b → kk a = kk b → a = b :=
      fun a ha b hb => hd a (List.mem_cons_of_mem r ha) b (List.mem_cons_of_mem r hb)
    by_cases hseen : (seen.contains (kid r)) = true
    · have hstep : dropDupGo kid seen (r :: rest) = dropDupGo kid seen rest := by
        rw [show dropDupGo kid seen (r :: rest)
            = if seen.contains (kid r) then dropDupGo kid seen rest
              else r :: dropDupGo kid (kid r :: seen) rest from rfl, if_pos hseen]
      have hrseen : kid r ∈ seen := (seenContains_iff seen (kid r)).mp hseen
      rw [hstep, ih seen hsrest hdrest x]
      constructor
      · rintro ⟨hx, hxs, hall⟩
        refine ⟨List.mem_cons_of_mem r hx, hxs, ?_⟩
        intro r' hr' heq
        rcases List.mem_cons.mp hr' with h | h
        · subst h
          exact absurd (heq ▸ hrseen) hxs
        · exact hall r' h heq
      · rintro ⟨hx, hxs, hall⟩
        rcases List.mem_cons.mp hx with h | h
        · exact absurd (h ▸ hrseen) hxs
        · exact ⟨h, hxs, fun r' hr' heq => hall r' (List.mem_cons_of_mem r hr') heq⟩
    · have hrseen : kid r ∉ seen := fun hmem => hseen ((seenContains_iff _ _).mpr hmem)
      have hstep : dropDupGo kid seen (r :: rest)
          = r :: dropDupGo kid (kid r :: seen) rest := by
        rw [show dropDupGo kid seen (r :: rest)
            = if seen.contains (kid r) then dropDupGo kid seen rest
              else r :: dropDupGo kid (kid r :: seen) rest from rfl, if_neg hseen]
      rw [hstep]
      constructor
      · intro hx
        rcases List.mem_cons.mp hx with hxr | hxrest
        · subst hxr
          refine ⟨List.mem_cons_self _ _, hrseen, ?_⟩
          intro r' hr' heq
          rcases List.mem_cons.mp hr' with h | h
          · exact Or.inl h
          · by_cases hkk : kk r' = kk x
            · exact Or.inl
                (hd r' (List.mem_cons_of_mem _ h) x (List.mem_cons_self _ _) heq hkk)
            · exact Or.inr ⟨hsr r' h, hkk⟩
        · obtain ⟨hx1, hx2, hall⟩ := (ih (kid r :: seen) hsrest hdrest x).mp hxrest
          have hxneq : kid x ≠ kid r := fun h => hx2 (h ▸ List.mem_cons_self _ _)
          have hxs : kid x ∉ seen := fun h => hx2 (List.mem_cons_of_mem _ h)
          refine ⟨List.mem_cons_of_mem r hx1, hxs, ?_⟩
          intro r' hr' heq
          rcases List.mem_cons.mp hr' with h | h
          · subst h
            exact absurd heq.symm hxneq
          · exact hall r' h heq
      · rintro ⟨hx, hxs, hall⟩
        by_cases hxr : x = r
        · subst hxr
          exact List.mem_cons_self _ _
        · have hxrest : x ∈ rest := by
            rcases List.mem_cons.mp hx with h | h
            · exact absurd h hxr
            · exact h
          have hxneq : kid x ≠ kid r := by
            intro hEqk
            rcases hall r (List.mem_cons_self _ _) hEqk.symm with hrx | hstrict
            · exact hxr hrx.symm
            · exact hstrict.2 (optDescLe_antisymm (hsr x hxrest) hstrict.1)
          refine List.mem_cons_of_mem r
            ((ih (kid r :: seen) hsrest hdrest x).mpr ⟨hxrest, ?_, ?_⟩)
          · intro hmem
            rcases List.mem_cons.mp hmem with h | h
            · exact hxneq h
            · exact hxs h
          · intro r' hr' heq
            exact hall r' (List.mem_cons_of_mem r hr') heq

/-- Membership in `drop_duplicates_first` after the descending stable sort,
characterised on the unsorted input list. -/
theorem sortDedup_mem_char {α : Type} (kid kk : TRow α → Option String)
    (l : List (TRow α))
    (hd : ∀ r ∈ l, ∀ r' ∈ l, kid r = kid r' → kk r = kk r' → r = r')
    (x : TRow α) :
    (x ∈ drop_duplicates_first kid (pandasSortDesc kk l) ↔
      x ∈ l ∧ ∀ r' ∈ l, kid r' = kid x → r' = x ∨ strictlyOlder (kk r') (kk x)) := by
  haveI : IsTotal (TRow α) (fun a b => optDescLe (kk a) (kk b) = true) :=
    ⟨fun a b => optDescLe_total (kk a) (kk b)⟩
  haveI : IsTrans (TRow α) (fun a b => optDescLe (kk a) (kk b) = true) :=
    ⟨fun _ _ _ h1 h2 => optDescLe_trans h1 h2⟩
  have hperm : (pandasSortDesc kk l).Perm l :=
    List.perm_insertionSort (fun a b => optDescLe (kk a) (kk b) = true) l
  have hsorted : List.Pairwise (fun a b => optDescLe (kk a) (kk b) = true)
      (pandasSortDesc kk l) :=
    List.sorted_insertionSort (fun a b => optDescLe (kk a) (kk b) = true) l
  have hdS : ∀ r ∈ pandasSortDesc kk l, ∀ r' ∈ pandasSortDesc kk l,
      kid r = kid r' → kk r = kk r' → r = r' :=
    fun r hr r' hr' => hd r (hperm.mem_iff.mp hr) r' (hperm.mem_iff.mp hr')
  rw [drop_duplicates_first, dropDupGo_mem_char kid kk (pandasSortDesc kk l) [] hsorted hdS x]
  constructor
  · rintro ⟨hx, -, hall⟩
    exact ⟨hperm.mem_iff.mp hx, fun r' hr' => hall r' (hperm.mem_iff.mpr hr')⟩
  · rintro ⟨hx, hall⟩
    exact ⟨hperm.mem_iff.mpr hx, List.not_mem_nil _,
      fun r' hr' => hall r' (hperm.mem_iff.mp hr')⟩

/-- The rows surviving the `eind_registratie` pre-filter inside the
`"latest"` strategy body. -/
theorem eindRows_sub {α : Type} (h : TGdf α) : ∀ r ∈ eindRows h, r ∈ h.rows := by
  intro r hr
  unfold eindRows at hr
  by_cases he : h.cols.hasEind = true
  · rw [if_pos he] at hr
    exact List.mem_of_mem_filter hr
  · rw [if_neg he] at hr
    exact hr

/-- With a `tijdstip_registratie` column, membership in the `"latest"`
strategy's output, characterised on the pre-filtered rows. -/
theorem latestFilter_mem_tijd {α : Type} (idf : IdField) (h : TGdf α)
    (hh : h.cols.hasTijd = true)
    (hd : ∀ r ∈ h.rows, ∀ r' ∈ h.rows, TRow.idKey idf r = TRow.idKey idf r' →
      r.tijdstip_registratie = r'.tijdstip_registratie → r = r')
    (x : TRow α) :
    (x ∈ (latestFilter idf h).rows ↔
      x ∈ eindRows h ∧ ∀ r' ∈ eindRows h, TRow.idKey idf r' = TRow.idKey idf x →
        r' = x ∨ strictlyOlder r'.tijdstip_registratie x.tijdstip_registratie) := by
  have hrows : (latestFilter idf h).rows
      = drop_duplicates_first (TRow.idKey idf)
          (pandasSortDesc (fun r => r.tijdstip_registratie) (eindRows h)) := by
    show (if h.cols.hasTijd = true then
          drop_duplicates_first (TRow.idKey idf)
            (pandasSortDesc (fun r => r.tijdstip_registratie) (eindRows h))
        else if h.cols.hasVersion = true then
          drop_duplicates_first (TRow.idKey idf)
            (pandasSortDesc (fun r => r.version) (eindRows h))
        else drop_duplicates_first (TRow.idKey idf) (eindRows h)) = _
    rw [if_pos hh]
  rw [hrows]
  exact sortDedup_mem_char (TRow.idKey idf) (fun r => r.tijdstip_registratie)
    (eindRows h)
    (fun r hr r' hr' => hd r (eindRows_sub h r hr) r' (eindRows_sub h r' hr'))
    x

/-- C9, amended: the claimed order-independence **fails** on rows tied on
identifier and timestamp (see the counterexample); it holds once the rows of
each identifier group carry pairwise distinct `tijdstip_registratie` values.
Under that separation hypothesis, for the `"latest"` strategy over a frame
with an identifier column and a `tijdstip_registratie` column, the output
row set of `_apply_temporal_filter` is the same for any two orderings of
the same input rows. -/
theorem c9_amended {α : Type} (parseIso : String → Option String) (now : String)
    (g g' : TGdf α) (idf : IdField) (x : TRow α)
    (hc : g'.cols = g.cols) (hp : g.rows.Perm g'.rows)
    (hidf : idFieldOf g.cols = some idf) (ht : g.cols.hasTijd = true)
    (hd : ∀ r ∈ g.rows, ∀ r' ∈ g.rows, TRow.idKey idf r = TRow.idKey idf r' →
      r.tijdstip_registratie = r'.tijdstip_registratie → r = r') :
    (x ∈ (apply_temporal_filter parseIso now g "latest").1.rows ↔
      x ∈ (apply_temporal_filter parseIso now g' "latest").1.rows) := by
  by_cases hE : g.rows.isEmpty = true
  · have hg0 : g.rows = [] := List.isEmpty_iff.mp hE
    have hg0' : g'.rows = [] := by
      have h2 := hp.symm
      rw [hg0] at h2
      exact List.perm_nil.mp h2
    have hE' : g'.rows.isEmpty = true := by rw [hg0']; rfl
    have h1 : apply_temporal_filter parseIso now g "latest" = (g, false) := by
      unfold apply_temporal_filter
      rw [hE]
      rfl
    have h1' : apply_temporal_filter parseIso now g' "latest" = (g', false) := by
      unfold apply_temporal_filter
      rw [hE']
      rfl
    rw [h1, h1']
    exact hp.mem_iff
  · have hEf : g.rows.isEmpty = false := by
      cases hv : g.rows.isEmpty with
      | false => rfl
      | true => exact absurd hv hE
    have hEf' : g'.rows.isEmpty = false := by
      cases hv : g'.rows with
      | nil =>
        exfalso
        have h2 := hp
        rw [hv] at h2
        exact hE (by rw [List.perm_nil.mp h2]; rfl)
      | cons a l => rfl
    have hidf' : idFieldOf g'.cols = some idf := by rw [hc]; exact hidf
    have ht' : g'.cols.hasTijd = true := by rw [hc]; exact ht
    have hR : apply_temporal_filter parseIso now g "latest" = (latestFilter idf g, false) := by
      unfold apply_temporal_filter
      rw [hEf, hidf]
      rfl
    have hR' : apply_temporal_filter parseIso now g' "latest"
        = (latestFilter idf g', false) := by
      unfold apply_temporal_filter
      rw [hEf', hidf']
      rfl
    rw [hR, hR']
    show x ∈ (latestFilter idf g).rows ↔ x ∈ (latestFilter idf g').rows
    have hd' : ∀ r ∈ g'.rows, ∀ r' ∈ g'.rows, TRow.idKey idf r = TRow.idKey idf r' →
        r.tijdstip_registratie = r'.tijdstip_registratie → r = r' :=
      fun r hr r' hr' => hd r (hp.mem_iff.mpr hr) r' (hp.mem_iff.mpr hr')
    rw [latestFilter_mem_tijd idf g ht hd x, latestFilter_mem_tijd idf g' ht' hd' x]
    have hpe : (eindRows g).Perm (eindRows g') := by
      unfold eindRows
      rw [hc]
      by_cases he : g.cols.hasEind = true
      · rw [if_pos he, if_pos he]
        exact hp.filter _
      · rw [if_neg he, if_neg he]
        exact hp
    constructor
    · rintro ⟨hx, hall⟩
      exact ⟨hpe.mem_iff.mp hx, fun r' hr' => hall r' (hpe.mem_iff.mpr hr')⟩
    · rintro ⟨hx, hall⟩
      exact ⟨hpe.mem_iff.mpr hx, fun r' hr' => hall r' (hpe.mem_iff.mp hr')⟩

/-- C9 amended, witness: the two orderings of the distinct-timestamp frame
agree on membership of the newer row. -/
theorem c9_amended_witness :
    (gC9wT.cols = gC9w.cols ∧ gC9w.rows.Perm gC9wT.rows ∧
      idFieldOf gC9w.cols = some IdField.ident ∧ gC9w.cols.hasTijd = true) ∧
    (rC9w1 ∈ (apply_temporal_filter (fun _ => none) "2026-01-01T00:00:00Z"
        gC9w "latest").1.rows ↔
      rC9w1 ∈ (apply_temporal_filter (fun _ => none) "2026-01-01T00:00:00Z"
        gC9wT "latest").1.rows) :=
  ⟨⟨rfl, List.Perm.swap rC9w2 rC9w1 [], rfl, rfl⟩,
    c9_amended (fun _ => none) "2026-01-01T00:00:00Z" gC9w gC9wT IdField.ident rC9w1
      rfl (List.Perm.swap rC9w2 rC9w1 []) rfl rfl (by decide)⟩

end Giskit
